import Mathlib

/-!
Verification development for the osu_analysis scoring engines.

The definitions below are a shallow embedding of the two scoring cores:

* `analysis/std/score_data.py` (`StdScoreData`): the aim+tap engine — its
  `Settings` record, the four per-event processors (`__process_free`,
  `__process_press`, `__process_hold`, `__process_release`), the advancement
  helper `__adv` and the main loop `get_score_data`.
* `analysis/mania/score_data.py` (`ManiaScoreData`): the column engine — its
  press/release/free processors and the per-column main loop of
  `get_score_data`.

Conventions of the embedding:

* times are `ℤ` (milliseconds); playfield coordinates are `ℤ` (the source
  uses floats; the inputs considered here are exact integers),
* radii are stored doubled (in half-pixel units) so that the source default
  `hitobject_radius = 36.5` is the integer `73`; the source compares the
  Euclidean norm `sqrt(dx^2+dy^2)` against a nonnegative radius `radius/2`,
  and the embedding equivalently compares `4*(dx^2+dy^2)` with `radius^2`,
* `np.nan` placeholders inside records (blank-tap rows, unset last-tap
  positions) are `Option.none`,
* Python booleans become `Bool`, Python `raise` becomes `Except.error`.
-/

namespace OsuAnalysis

/-- Aimpoint role in a std map row (`StdMapData.TYPE_PRESS/HOLD/RELEASE`,
the `type` column). -/
inductive AimRole where
  | press
  | hold
  | release
deriving DecidableEq, Repr

/-- Hit-object kind of a std map row (`StdMapData.TYPE_CIRCLE/SLIDER/SPINNER`,
the `object` column). -/
inductive ObjKind where
  | circle
  | slider
  | spinner
deriving DecidableEq, Repr

/-- Player action kind of a std replay event
(`StdReplayData.FREE/PRESS/HOLD/RELEASE`). -/
inductive KeyAct where
  | free
  | press
  | hold
  | release
deriving DecidableEq, Repr

/-- Judgment type of a std score record
(`StdScoreData.TYPE_HITP/HITR/AIMH/MISS/EMPTY`). -/
inductive SType where
  | hitp
  | hitr
  | aimh
  | miss
  | empty
deriving DecidableEq, Repr

/-- Advancement code returned by the std processors
(`__ADV_NOP`, `__ADV_AIMP`, `__ADV_NOTE`). -/
inductive Adv where
  | nop
  | aimp
  | note
deriving DecidableEq, Repr

/-- One std map row: `[time, x, y, type, object]` plus the hit-object index
carried by the `hitobject` level of the map's multiindex. -/
structure Aimpoint where
  time : ℤ
  x : ℤ
  y : ℤ
  type : AimRole
  obj : ObjKind
  objIdx : ℕ
deriving DecidableEq, Repr

/-- One std replay row: `[time, x, y, keys]`. -/
structure ReplayEvent where
  time : ℤ
  x : ℤ
  y : ℤ
  key : KeyAct
deriving DecidableEq, Repr

/-- One row of the std score stream:
`[replay_t, map_t, replay_x, replay_y, map_x, map_y, type, action]`.
`np.nan` entries are `none`. -/
structure ScoreRecord where
  replay_t : ℤ
  map_t : Option ℤ
  replay_xy : Option (ℤ × ℤ)
  map_xy : Option (ℤ × ℤ)
  type : SType
  action : KeyAct
deriving DecidableEq, Repr

/-- Model of `StdScoreData.Settings`: the recognized options with the constructor
defaults of `Settings.__init__`. -/
structure Settings where
  neg_hit_miss_range : ℤ := 200
  neg_hit_range : ℤ := 100
  pos_hit_range : ℤ := 100
  pos_hit_miss_range : ℤ := 200
  neg_rel_miss_range : ℤ := 1000
  neg_rel_range : ℤ := 500
  pos_rel_range : ℤ := 500
  pos_rel_miss_range : ℤ := 1000
  neg_hld_range : ℤ := 0
  pos_hld_range : ℤ := 1000
  hitobject_radius : ℤ := 73
  release_radius : ℤ := 200
  follow_radius : ℤ := 200
  ar_ms : ℤ := 450
  notelock : Bool := true
  dynamic_window : Bool := false
  blank_miss : Bool := false
  recoverable_release : Bool := true
  release_miss : Bool := true
  miss_slider : Bool := true
  press_miss : Bool := true
  recoverable_missaim : Bool := true
  overlap_miss_handling : Bool := false
  overlap_hit_handling : Bool := false
  press_block : Bool := false
  release_block : Bool := false
  require_tap_press : Bool := true
  require_tap_release : Bool := true
  require_tap_hold : Bool := true
  require_aim_press : Bool := true
  require_aim_release : Bool := true
  require_aim_hold : Bool := true
deriving DecidableEq, Repr

/-- Squared distance between the replay cursor and an aimpoint.  The source
computes `pos_offset = sqrt(dx^2 + dy^2)` and compares it with a radius. -/
def sqDist (x1 y1 x2 y2 : ℤ) : ℤ := (x1 - x2) ^ 2 + (y1 - y2) ^ 2

/-- Test `pos_offset > r` for a nonnegative radius, where `r` is the doubled
(half-pixel unit) radius value: `sqrt(d) > r/2  ↔  r^2 < 4*d`. -/
def missAimB (x1 y1 x2 y2 r : ℤ) : Bool := decide (r ^ 2 < 4 * sqDist x1 y1 x2 y2)

/-- Model of `StdScoreData.__process_press`, acting on the first aimpoint of the
window passed to it.  Returns the emitted record (if any), the advancement
code, and the updated `last_tap_pos`. -/
def stdProcessPress (s : Settings) (a : Aimpoint) (replay_time : ℤ)
    (replay_xpos replay_ypos : ℤ) (last_tap_pos : Option (ℤ × ℤ)) :
    Option ScoreRecord × Adv × Option (ℤ × ℤ) :=
  if a.type ≠ AimRole.press then (none, Adv.nop, last_tap_pos) else
  let time_offset := replay_time - a.time
  let is_miss_aim :=
    s.require_aim_press && missAimB replay_xpos replay_ypos a.x a.y s.hitobject_radius
  let rec_xy : ℤ × ℤ :=
    if s.require_aim_press then (replay_xpos, replay_ypos) else (a.x, a.y)
  let is_in_neg_nothing_range :=
    if s.require_tap_press then decide (time_offset ≤ -s.neg_hit_miss_range)
    else s.blank_miss && decide (time_offset ≤ -s.neg_hit_miss_range)
  let is_in_neg_miss_range :=
    if s.require_tap_press then
      decide (-s.neg_hit_miss_range < time_offset) && decide (time_offset ≤ -s.neg_hit_range)
    else false
  let is_in_hit_range :=
    if s.require_tap_press then
      decide (-s.neg_hit_range < time_offset) && decide (time_offset ≤ s.pos_hit_range)
    else decide (0 ≤ time_offset)
  let is_in_pos_miss_range :=
    if s.require_tap_press then
      decide (s.pos_hit_range < time_offset) && decide (time_offset ≤ s.pos_hit_miss_range)
    else false
  if is_miss_aim then
    ((if s.blank_miss then
        some { replay_t := replay_time, map_t := none,
               replay_xy := some (replay_xpos, replay_ypos), map_xy := none,
               type := SType.empty, action := KeyAct.press }
      else none),
     Adv.nop, some (replay_xpos, replay_ypos))
  else if is_in_neg_nothing_range then
    ((if s.blank_miss then
        some { replay_t := replay_time, map_t := none,
               replay_xy := some rec_xy, map_xy := none,
               type := SType.empty, action := KeyAct.press }
      else none),
     Adv.nop, last_tap_pos)
  else if is_in_neg_miss_range then
    if s.press_miss then
      (some { replay_t := replay_time, map_t := some a.time,
              replay_xy := some rec_xy, map_xy := some (a.x, a.y),
              type := SType.miss, action := KeyAct.press },
       Adv.note, last_tap_pos)
    else (none, Adv.nop, last_tap_pos)
  else if is_in_hit_range then
    (some { replay_t := replay_time, map_t := some a.time,
            replay_xy := some rec_xy, map_xy := some (a.x, a.y),
            type := SType.hitp, action := KeyAct.press },
     (if a.obj = ObjKind.slider then Adv.aimp else Adv.note), last_tap_pos)
  else if is_in_pos_miss_range then
    if s.press_miss then
      (some { replay_t := replay_time, map_t := some a.time,
              replay_xy := some rec_xy, map_xy := some (a.x, a.y),
              type := SType.miss, action := KeyAct.press },
       Adv.note, last_tap_pos)
    else (none, Adv.nop, last_tap_pos)
  else (none, Adv.nop, last_tap_pos)

/-- C1: std press dispatch.  For a PRESS replay event processed against a
PRESS aimpoint with `pos_offset ≤ hitobject_radius`, with `require_tap_press`
and `require_aim_press` true, the emitted judgment and advancement follow the
§4.2 zone table for every integer `time_offset = replay_t - aimpoint_t`:
the early nothing zone gives no record (EMPTY if `blank_miss`) and NOP, the
early miss zone gives MISS/NOTE when `press_miss` (else nothing/NOP), the hit
zone gives HIT_PRESS with AIMP for a slider and NOTE otherwise, the late miss
zone behaves like the early miss zone, and past the late miss window nothing
is recorded and the cursor does not move; with `require_tap_press` false the
whole negative side is NOP and any `time_offset ≥ 0` is HIT_PRESS. -/
theorem std_press_zone_table (s : Settings) (a : Aimpoint) (t : ℤ) (x y : ℤ)
    (lt : Option (ℤ × ℤ))
    (hrole : a.type = AimRole.press)
    (haim : s.require_aim_press = true)
    (hin : missAimB x y a.x a.y s.hitobject_radius = false)
    (h2 : s.neg_hit_range ≤ s.neg_hit_miss_range)
    (h3 : 0 ≤ s.pos_hit_range) (h1 : 0 < s.neg_hit_range)
    (h4 : s.pos_hit_range ≤ s.pos_hit_miss_range) :
    (s.require_tap_press = true →
      ((t - a.time ≤ -s.neg_hit_miss_range →
        stdProcessPress s a t x y lt =
          ((if s.blank_miss then
              some ⟨t, none, some (x, y), none, SType.empty, KeyAct.press⟩
            else none), Adv.nop, lt)) ∧
       (-s.neg_hit_miss_range < t - a.time → t - a.time ≤ -s.neg_hit_range →
        stdProcessPress s a t x y lt =
          (if s.press_miss then
            (some ⟨t, some a.time, some (x, y), some (a.x, a.y), SType.miss, KeyAct.press⟩,
             Adv.note, lt)
           else (none, Adv.nop, lt))) ∧
       (-s.neg_hit_range < t - a.time → t - a.time ≤ s.pos_hit_range →
        stdProcessPress s a t x y lt =
          (some ⟨t, some a.time, some (x, y), some (a.x, a.y), SType.hitp, KeyAct.press⟩,
           (if a.obj = ObjKind.slider then Adv.aimp else Adv.note), lt)) ∧
       (s.pos_hit_range < t - a.time → t - a.time ≤ s.pos_hit_miss_range →
        stdProcessPress s a t x y lt =
          (if s.press_miss then
            (some ⟨t, some a.time, some (x, y), some (a.x, a.y), SType.miss, KeyAct.press⟩,
             Adv.note, lt)
           else (none, Adv.nop, lt))) ∧
       (s.pos_hit_miss_range < t - a.time →
        stdProcessPress s a t x y lt = (none, Adv.nop, lt)))) ∧
    (s.require_tap_press = false →
      ((t - a.time < 0 →
        (stdProcessPress s a t x y lt).2 = (Adv.nop, lt)) ∧
       (0 ≤ t - a.time →
        stdProcessPress s a t x y lt =
          (some ⟨t, some a.time, some (x, y), some (a.x, a.y), SType.hitp, KeyAct.press⟩,
           (if a.obj = ObjKind.slider then Adv.aimp else Adv.note), lt)))) := by
  unfold stdProcessPress
  rw [hrole]
  simp only [ne_eq, not_true_eq_false, if_false, haim, hin, Bool.true_and, if_true,
    Bool.false_eq_true, Bool.true_eq_false]
  constructor
  · intro htap
    rw [htap]
    simp only [if_true]
    refine ⟨?_, ?_, ?_, ?_, ?_⟩
    · intro h
      rw [decide_eq_true h]
      simp
    · intro ha hb
      rw [decide_eq_false (by omega : ¬ t - a.time ≤ -s.neg_hit_miss_range),
        decide_eq_true ha, decide_eq_true hb]
      simp
    · intro ha hb
      rw [decide_eq_false (by omega : ¬ t - a.time ≤ -s.neg_hit_miss_range),
        decide_eq_false (by omega : ¬ t - a.time ≤ -s.neg_hit_range),
        decide_eq_true ha, decide_eq_true hb]
      simp
    · intro ha hb
      rw [decide_eq_false (by omega : ¬ t - a.time ≤ -s.neg_hit_miss_range),
        decide_eq_false (by omega : ¬ t - a.time ≤ -s.neg_hit_range),
        decide_eq_false (by omega : ¬ t - a.time ≤ s.pos_hit_range),
        decide_eq_true ha, decide_eq_true hb]
      simp
    · intro h
      rw [decide_eq_false (by omega : ¬ t - a.time ≤ -s.neg_hit_miss_range),
        decide_eq_false (by omega : ¬ t - a.time ≤ -s.neg_hit_range),
        decide_eq_false (by omega : ¬ t - a.time ≤ s.pos_hit_range),
        decide_eq_false (by omega : ¬ t - a.time ≤ s.pos_hit_miss_range)]
      simp
  · intro htap
    rw [htap]
    simp only [Bool.false_eq_true, if_false]
    constructor
    · intro h
      rw [decide_eq_false (by omega : ¬ 0 ≤ t - a.time)]
      by_cases hb : s.blank_miss = true
      · rw [hb]
        by_cases hc : t - a.time ≤ -s.neg_hit_miss_range
        · rw [decide_eq_true hc]
          simp
        · rw [decide_eq_false hc]
          simp
      · rw [Bool.not_eq_true] at hb
        rw [hb]
        simp
    · intro h
      rw [decide_eq_true h,
        decide_eq_false (by omega : ¬ t - a.time ≤ -s.neg_hit_miss_range)]
      simp

/-- Witness for C1: default settings, a circle PRESS aimpoint at t=1000 and
(500,500), tapped exactly on time at its center, scores HIT_PRESS with
advance-to-next-note. -/
theorem std_press_zone_table_witness :
    stdProcessPress {} ⟨1000, 500, 500, AimRole.press, ObjKind.circle, 0⟩ 1000 500 500 none =
      (some ⟨1000, some 1000, some (500, 500), some (500, 500), SType.hitp, KeyAct.press⟩,
       Adv.note, none) :=
  ((std_press_zone_table {} ⟨1000, 500, 500, AimRole.press, ObjKind.circle, 0⟩ 1000 500 500
      none rfl rfl (by decide) (by decide) (by decide) (by decide) (by decide)).1
    rfl).2.2.1 (by decide) (by decide)

/-- Model of `StdScoreData.__process_free`, acting on the aimpoint selected by the
caller.  Returns the emitted record (if any), the advancement code, and the
lines written to standard output by the `print` calls in the
`require_aim_press and not require_tap_press` branch. -/
def stdProcessFree (s : Settings) (a : Aimpoint) (replay_time : ℤ)
    (replay_xpos replay_ypos : ℤ) (last_tap_pos : Option (ℤ × ℤ)) :
    Option ScoreRecord × Adv × List String :=
  if replay_time < a.time then (none, Adv.nop, []) else
  let time_offset := replay_time - a.time
  match a.type with
  | AimRole.press =>
    let is_late_timing := decide (s.pos_hit_miss_range < time_offset)
    let is_miss_aiming := missAimB replay_xpos replay_ypos a.x a.y s.hitobject_radius
    if s.require_aim_press && s.require_tap_press then
      if is_late_timing then
        (some { replay_t := replay_time, map_t := some a.time,
                replay_xy := last_tap_pos, map_xy := some (a.x, a.y),
                type := SType.miss, action := KeyAct.press }, Adv.note, [])
      else (none, Adv.nop, [])
    else if s.require_aim_press && !s.require_tap_press then
      if is_miss_aiming then
        if is_late_timing then
          (some { replay_t := replay_time, map_t := some a.time,
                  replay_xy := some (replay_xpos, replay_ypos), map_xy := some (a.x, a.y),
                  type := SType.miss, action := KeyAct.press }, Adv.note, ["free miss"])
        else (none, Adv.nop, [])
      else
        if 0 ≤ time_offset then
          (some { replay_t := replay_time, map_t := some a.time,
                  replay_xy := some (replay_xpos, replay_ypos), map_xy := some (a.x, a.y),
                  type := SType.hitp, action := KeyAct.press }, Adv.note, ["free hitp"])
        else (none, Adv.nop, [])
    else if !s.require_aim_press && s.require_tap_press then
      if is_late_timing then
        (some { replay_t := replay_time, map_t := some a.time,
                replay_xy := last_tap_pos, map_xy := some (a.x, a.y),
                type := SType.miss, action := KeyAct.press }, Adv.note, [])
      else (none, Adv.nop, [])
    else
      if 0 ≤ time_offset then
        (some { replay_t := replay_time, map_t := some a.time,
                replay_xy := some (a.x, a.y), map_xy := some (a.x, a.y),
                type := SType.hitp, action := KeyAct.press }, Adv.note, [])
      else (none, Adv.nop, [])
  | AimRole.release =>
    let rec_xy : ℤ × ℤ :=
      if s.require_aim_release then (replay_xpos, replay_ypos) else (a.x, a.y)
    let is_late_timing := decide (s.pos_rel_miss_range < time_offset)
    let is_miss_aiming := missAimB replay_xpos replay_ypos a.x a.y s.release_radius
    if s.require_aim_release && s.require_tap_release then
      if is_late_timing then
        (some { replay_t := replay_time, map_t := some a.time,
                replay_xy := some rec_xy, map_xy := some (a.x, a.y),
                type := SType.miss, action := KeyAct.release }, Adv.note, [])
      else (none, Adv.nop, [])
    else if s.require_aim_release && !s.require_tap_release then
      if is_miss_aiming then
        if is_late_timing then
          (some { replay_t := replay_time, map_t := some a.time,
                  replay_xy := some rec_xy, map_xy := some (a.x, a.y),
                  type := SType.miss, action := KeyAct.release }, Adv.note, [])
        else (none, Adv.nop, [])
      else
        if 0 ≤ time_offset then
          (some { replay_t := replay_time, map_t := some a.time,
                  replay_xy := some rec_xy, map_xy := some (a.x, a.y),
                  type := SType.hitr, action := KeyAct.release }, Adv.note, [])
        else (none, Adv.nop, [])
    else if !s.require_aim_release && s.require_tap_release then
      if is_late_timing then
        (some { replay_t := replay_time, map_t := some a.time,
                replay_xy := some rec_xy, map_xy := some (a.x, a.y),
                type := SType.miss, action := KeyAct.release }, Adv.note, [])
      else (none, Adv.nop, [])
    else
      if 0 ≤ time_offset then
        (some { replay_t := replay_time, map_t := some a.time,
                replay_xy := some rec_xy, map_xy := some (a.x, a.y),
                type := SType.hitr, action := KeyAct.release }, Adv.note, [])
      else (none, Adv.nop, [])
  | AimRole.hold =>
    let rec_xy : ℤ × ℤ :=
      if s.require_aim_hold then (replay_xpos, replay_ypos) else (a.x, a.y)
    let is_late_timing :=
      if s.recoverable_release then decide (s.pos_hld_range < time_offset)
      else decide (0 < time_offset)
    let is_miss_aiming := missAimB replay_xpos replay_ypos a.x a.y s.release_radius
    let miss_adv := if s.miss_slider then Adv.note else Adv.aimp
    if s.require_aim_hold && s.require_tap_hold then
      if is_late_timing then
        (some { replay_t := replay_time, map_t := some a.time,
                replay_xy := some rec_xy, map_xy := some (a.x, a.y),
                type := SType.miss, action := KeyAct.hold }, miss_adv, [])
      else (none, Adv.nop, [])
    else if s.require_aim_hold && !s.require_tap_hold then
      if is_miss_aiming then
        if is_late_timing then
          (some { replay_t := replay_time, map_t := some a.time,
                  replay_xy := some rec_xy, map_xy := some (a.x, a.y),
                  type := SType.miss, action := KeyAct.hold }, miss_adv, [])
        else (none, Adv.nop, [])
      else
        if 0 ≤ time_offset then
          (some { replay_t := replay_time, map_t := some a.time,
                  replay_xy := some rec_xy, map_xy := some (a.x, a.y),
                  type := SType.aimh, action := KeyAct.hold }, Adv.aimp, [])
        else (none, Adv.nop, [])
    else if !s.require_aim_hold && s.require_tap_hold then
      if is_late_timing then
        (some { replay_t := replay_time, map_t := some a.time,
                replay_xy := some rec_xy, map_xy := some (a.x, a.y),
                type := SType.miss, action := KeyAct.hold }, miss_adv, [])
      else (none, Adv.nop, [])
    else
      if 0 ≤ time_offset then
        (some { replay_t := replay_time, map_t := some a.time,
                replay_xy := some rec_xy, map_xy := some (a.x, a.y),
                type := SType.aimh, action := KeyAct.hold }, Adv.aimp, [])
      else (none, Adv.nop, [])

/-- Model of `StdScoreData.__process_hold`. -/
def stdProcessHold (s : Settings) (a : Aimpoint) (replay_time : ℤ)
    (replay_xpos replay_ypos : ℤ) : Option ScoreRecord × Adv :=
  if a.type ≠ AimRole.hold then (none, Adv.nop) else
  let time_offset := replay_time - a.time
  let is_miss_aim :=
    s.require_aim_hold && missAimB replay_xpos replay_ypos a.x a.y s.follow_radius
  let rec_xy : ℤ × ℤ :=
    if s.require_aim_hold then (replay_xpos, replay_ypos) else (a.x, a.y)
  let is_in_neg_nothing_range :=
    if s.require_tap_hold then decide (time_offset ≤ -s.neg_hld_range) else false
  let is_in_hold_range :=
    if s.require_tap_hold then
      decide (-s.neg_hld_range < time_offset) && decide (time_offset ≤ s.pos_hld_range)
    else decide (0 ≤ time_offset)
  let miss_adv := if s.miss_slider then Adv.note else Adv.aimp
  if is_miss_aim then
    if s.recoverable_missaim then
      if s.pos_hld_range < time_offset then
        (some { replay_t := replay_time, map_t := some a.time,
                replay_xy := some rec_xy, map_xy := some (a.x, a.y),
                type := SType.miss, action := KeyAct.hold }, miss_adv)
      else (none, Adv.nop)
    else
      (some { replay_t := replay_time, map_t := some a.time,
              replay_xy := some rec_xy, map_xy := some (a.x, a.y),
              type := SType.miss, action := KeyAct.hold }, miss_adv)
  else if is_in_neg_nothing_range then (none, Adv.nop)
  else if is_in_hold_range then
    (some { replay_t := replay_time, map_t := some a.time,
            replay_xy := some rec_xy, map_xy := some (a.x, a.y),
            type := SType.aimh, action := KeyAct.hold }, Adv.aimp)
  else (none, Adv.nop)

/-- Model of `StdScoreData.__process_release`. -/
def stdProcessRelease (s : Settings) (a : Aimpoint) (replay_time : ℤ)
    (replay_xpos replay_ypos : ℤ) : Option ScoreRecord × Adv :=
  if a.type = AimRole.press then (none, Adv.nop) else
  let time_offset := replay_time - a.time
  let is_miss_aim :=
    s.require_aim_release && missAimB replay_xpos replay_ypos a.x a.y s.release_radius
  let rec_xy : ℤ × ℤ :=
    if s.require_aim_release then (replay_xpos, replay_ypos) else (a.x, a.y)
  let is_in_neg_nothing_range :=
    if s.require_tap_release then decide (time_offset ≤ -s.neg_rel_miss_range) else false
  let is_in_neg_miss_range :=
    if s.require_tap_release then
      decide (-s.neg_rel_miss_range < time_offset) && decide (time_offset ≤ -s.neg_rel_range)
    else false
  let is_in_rel_range :=
    if s.require_tap_release then
      decide (-s.neg_rel_range < time_offset) && decide (time_offset ≤ s.pos_rel_range)
    else decide (0 ≤ time_offset)
  let is_in_pos_miss_range :=
    if s.require_tap_release then
      decide (s.pos_rel_range < time_offset) && decide (time_offset ≤ s.pos_rel_miss_range)
    else false
  if a.type = AimRole.hold then
    if s.require_tap_hold then
      if s.recoverable_release then (none, Adv.nop)
      else
        (some { replay_t := replay_time, map_t := some a.time,
                replay_xy := some rec_xy, map_xy := some (a.x, a.y),
                type := SType.miss, action := KeyAct.hold },
         if s.miss_slider then Adv.note else Adv.aimp)
    else (none, Adv.nop)
  else if is_miss_aim then
    (some { replay_t := replay_time, map_t := some a.time,
            replay_xy := some rec_xy, map_xy := some (a.x, a.y),
            type := SType.miss, action := KeyAct.release }, Adv.note)
  else if is_in_neg_nothing_range then (none, Adv.nop)
  else if is_in_neg_miss_range then
    if s.release_miss then
      (some { replay_t := replay_time, map_t := some a.time,
              replay_xy := some rec_xy, map_xy := some (a.x, a.y),
              type := SType.miss, action := KeyAct.release }, Adv.note)
    else (none, Adv.nop)
  else if is_in_rel_range then
    (some { replay_t := replay_time, map_t := some a.time,
            replay_xy := some rec_xy, map_xy := some (a.x, a.y),
            type := SType.hitr, action := KeyAct.release }, Adv.note)
  else if is_in_pos_miss_range then
    if s.release_miss then
      (some { replay_t := replay_time, map_t := some a.time,
              replay_xy := some rec_xy, map_xy := some (a.x, a.y),
              type := SType.miss, action := KeyAct.release }, Adv.note)
    else (none, Adv.nop)
  else (none, Adv.nop)

/-- C6: blank-tap back-dating.  With `blank_miss` and `require_aim_press`
(and `require_tap_press`) true, a PRESS event outside `hitobject_radius` of a
PRESS aimpoint emits an EMPTY record carrying the tap's (x,y), does not move
the map cursor, and stores (x,y) as the last blank-tap position; when the
aimpoint later times out under FREE processing the MISS record carries that
stored (x,y) as its replay position. -/
theorem std_blank_tap_backdating (s : Settings) (a : Aimpoint)
    (t1 x1 y1 : ℤ) (lt : Option (ℤ × ℤ)) (t2 x2 y2 : ℤ)
    (hb : s.blank_miss = true) (haim : s.require_aim_press = true)
    (htap : s.require_tap_press = true) (hrole : a.type = AimRole.press)
    (hout : missAimB x1 y1 a.x a.y s.hitobject_radius = true)
    (hlate : s.pos_hit_miss_range < t2 - a.time)
    (hpos : 0 ≤ s.pos_hit_miss_range) :
    stdProcessPress s a t1 x1 y1 lt =
      (some ⟨t1, none, some (x1, y1), none, SType.empty, KeyAct.press⟩,
       Adv.nop, some (x1, y1)) ∧
    stdProcessFree s a t2 x2 y2 (some (x1, y1)) =
      (some ⟨t2, some a.time, some (x1, y1), some (a.x, a.y), SType.miss, KeyAct.press⟩,
       Adv.note, []) := by
  constructor
  · unfold stdProcessPress
    rw [hrole]
    simp [haim, hout, hb]
  · unfold stdProcessFree
    rw [if_neg (by omega : ¬ t2 < a.time), hrole]
    simp only [haim, htap, Bool.and_self, if_true,
      decide_eq_true (show s.pos_hit_miss_range < t2 - a.time from hlate)]

/-- Witness for C6: default settings with `blank_miss`, circle at t=1000 and
(500,500), blank tap at t=990 and (0,0), FREE timeout check at t=1300. -/
theorem std_blank_tap_backdating_witness :
    stdProcessPress { blank_miss := true } ⟨1000, 500, 500, AimRole.press, ObjKind.circle, 0⟩
        990 0 0 none =
      (some ⟨990, none, some (0, 0), none, SType.empty, KeyAct.press⟩,
       Adv.nop, some (0, 0)) ∧
    stdProcessFree { blank_miss := true } ⟨1000, 500, 500, AimRole.press, ObjKind.circle, 0⟩
        1300 400 400 (some (0, 0)) =
      (some ⟨1300, some 1000, some (0, 0), some (500, 500), SType.miss, KeyAct.press⟩,
       Adv.note, []) :=
  std_blank_tap_backdating { blank_miss := true }
    ⟨1000, 500, 500, AimRole.press, ObjKind.circle, 0⟩ 990 0 0 none 1300 400 400
    rfl rfl rfl rfl (by decide) (by decide) (by decide)

/-- Modelled from the spec: `StdMapData.all_times`
(`analysis/std/map_data.py` is not among the sources) — the list of aimpoint
times of the map, in map order. -/
def allTimes (m : List Aimpoint) : List ℤ := m.map (fun a => a.time)

/-- The last map time (`StdMapData.all_times(map_data)[-1]`); `0` for an
empty map, on which the engine never runs. -/
def lastTimeD (m : List Aimpoint) : ℤ := (allTimes m).getLastD 0

/-- Modelled from the spec: `StdMapData.get_scorepoint_after` — §4.2 says
AIMP "moves to the next scorepoint after the current time", so this returns
the first map row whose time is strictly greater than the given time. -/
def getScorepointAfter (m : List Aimpoint) (t : ℤ) : Option Aimpoint :=
  m.find? (fun a => decide (t < a.time))

/-- Helper of `objStarts`: keeps rows whose hit-object index differs from the
preceding row's. -/
def objStartsGo (prev : Aimpoint) : List Aimpoint → List Aimpoint
  | [] => []
  | b :: rest =>
    if b.objIdx ≠ prev.objIdx then b :: objStartsGo b rest else objStartsGo b rest

/-- First aimpoint of every hit-object, in map order (each object's aimpoints
are listed consecutively in the map). -/
def objStarts : List Aimpoint → List Aimpoint
  | [] => []
  | a :: rest => a :: objStartsGo a rest

/-- Modelled from the spec: `StdMapData.get_note_after` — §4.2 says NOTE
"moves to the next hit-object's first aimpoint" after the current time, so
this returns the first object-start row whose time is strictly greater than
the given time. -/
def getNoteAfter (m : List Aimpoint) (t : ℤ) : Option Aimpoint :=
  (objStarts m).find? (fun a => decide (t < a.time))

/-- Model of `StdScoreData.__adv`: map-cursor advancement.  NOP keeps the time, AIMP
moves to the next scorepoint, NOTE to the next hit-object's first aimpoint;
past-the-end advancement lands on the last map time plus one. -/
def advanceCursor (m : List Aimpoint) (map_time : ℤ) : Adv → ℤ
  | Adv.nop => map_time
  | Adv.aimp =>
    match getScorepointAfter m map_time with
    | none => lastTimeD m + 1
    | some a => a.time
  | Adv.note =>
    match getNoteAfter m map_time with
    | none => lastTimeD m + 1
    | some a => a.time

/-- C8: monotone advancement.  Every advancement step (NOP, AIMP, NOTE, or
past-the-end) yields a map time greater than or equal to the current one, for
any cursor position the run can be in (at most one past the last map time);
hence the map cursor time never decreases within a run. -/
theorem std_adv_monotone (m : List Aimpoint) (map_time : ℤ) (c : Adv)
    (h : map_time ≤ lastTimeD m + 1) : map_time ≤ advanceCursor m map_time c := by
  cases c with
  | nop => exact le_refl _
  | aimp =>
    unfold advanceCursor
    cases hfind : getScorepointAfter m map_time with
    | none => exact h
    | some a =>
      have := List.find?_some (by exact hfind : List.find? _ m = some a)
      simp only [decide_eq_true_eq] at this
      exact le_of_lt this
  | note =>
    unfold advanceCursor
    cases hfind : getNoteAfter m map_time with
    | none => exact h
    | some a =>
      have := List.find?_some (by exact hfind : List.find? _ (objStarts m) = some a)
      simp only [decide_eq_true_eq] at this
      exact le_of_lt this

/-- Witness for C8: a one-object map, the cursor at the first aimpoint,
advancing by NOTE moves it past the end without decreasing. -/
theorem std_adv_monotone_witness :
    (100 : ℤ) ≤ lastTimeD [⟨100, 0, 0, AimRole.press, ObjKind.circle, 0⟩] + 1 ∧
    (100 : ℤ) ≤ advanceCursor [⟨100, 0, 0, AimRole.press, ObjKind.circle, 0⟩] 100 Adv.note :=
  ⟨by decide,
   std_adv_monotone [⟨100, 0, 0, AimRole.press, ObjKind.circle, 0⟩] 100 Adv.note (by decide)⟩

/-- Helper of `filterSingleRelease`: drops a RELEASE row that follows a PRESS
row 1 ms earlier at the same coordinates (the redundant release of a
hit-circle).  `prev` is the preceding row of the original map. -/
def filterSRGo (prev : Aimpoint) : List Aimpoint → List Aimpoint
  | [] => []
  | b :: rest =>
    if prev.type = AimRole.press ∧ b.type = AimRole.release ∧
        b.time - prev.time = 1 ∧ b.x = prev.x ∧ b.y = prev.y then
      filterSRGo b rest
    else b :: filterSRGo b rest

/-- The `filter_single_release` mask applied at the top of
`StdScoreData.get_score_data`: the first row is always kept. -/
def filterSingleRelease : List Aimpoint → List Aimpoint
  | [] => []
  | a :: rest => a :: filterSRGo a rest

/-- The `earliest_window_range` of `get_score_data`. -/
def earliestWindowRange (s : Settings) : ℤ :=
  max (max s.neg_hit_miss_range s.neg_rel_miss_range) s.neg_hld_range

/-- Modelled from the spec: `StdReplayData.get_reduced_replay_data`
(`analysis/std/replay_data.py` is not among the sources).  Spec §4.5: the
pre-pass rewrites events only when `press_block` or `release_block` is set;
with both flags false it leaves the replay unchanged.  The per-key state the
flagged rewrite consults is absent from this event model, and every run in
the theorems below uses settings with both flags false, where the pre-pass is
the identity. -/
def getReducedReplayData (r : List ReplayEvent) : List ReplayEvent := r

/-- State threaded through the main loop of `StdScoreData.get_score_data`:
the score records so far, the lines printed to standard output so far, the
last blank-tap position, and the map cursor time. -/
structure StdRunState where
  recs : List ScoreRecord
  prints : List String
  last_tap_pos : Option (ℤ × ℤ)
  map_time : ℤ
deriving DecidableEq, Repr

/-- The catch-up loop of `get_score_data` (skipped-note FREE processing ahead
of one replay event).  `fuel` bounds the iterations; every non-NOP
advancement strictly increases `map_time` among the map times, so
`m.length + 1` iterations always suffice. -/
def stdCatchUp (s : Settings) (m : List Aimpoint) (map_time_max : ℤ)
    (ev : ReplayEvent) : ℕ → StdRunState → StdRunState
  | 0, st => st
  | fuel + 1, st =>
    if map_time_max < st.map_time then st
    else if ev.time < st.map_time - earliestWindowRange s then st
    else
      match m.find? (fun a => decide (a.time = st.map_time)) with
      | none => st
      | some a =>
        let res := stdProcessFree s a ev.time ev.x ev.y st.last_tap_pos
        if res.2.1 = Adv.nop then st
        else
          stdCatchUp s m map_time_max ev fuel
            { recs := st.recs ++ res.1.toList,
              prints := st.prints ++ res.2.2,
              last_tap_pos := none,
              map_time := advanceCursor m st.map_time res.2.1 }

/-- One iteration of the outer loop of `get_score_data`: catch-up, then
visibility selection, then dispatch on the event's action kind, then cursor
advancement with the blank-tap reset. -/
def stdStep (s : Settings) (m : List Aimpoint) (map_time_max : ℤ)
    (st : StdRunState) (ev : ReplayEvent) : StdRunState :=
  let st1 := stdCatchUp s m map_time_max ev (m.length + 1) st
  let visible := m.filter
    (fun a => decide (ev.time ≤ a.time) && decide (a.time ≤ ev.time + s.ar_ms))
  match visible with
  | [] => st1
  | a :: _ =>
    match ev.key with
    | KeyAct.free =>
      let res := stdProcessFree s a ev.time ev.x ev.y st1.last_tap_pos
      { recs := st1.recs ++ res.1.toList, prints := st1.prints ++ res.2.2,
        last_tap_pos := if res.2.1 ≠ Adv.nop then none else st1.last_tap_pos,
        map_time := advanceCursor m st1.map_time res.2.1 }
    | KeyAct.press =>
      let res := stdProcessPress s a ev.time ev.x ev.y st1.last_tap_pos
      { recs := st1.recs ++ res.1.toList, prints := st1.prints,
        last_tap_pos := if res.2.1 ≠ Adv.nop then none else res.2.2,
        map_time := advanceCursor m st1.map_time res.2.1 }
    | KeyAct.hold =>
      let res := stdProcessHold s a ev.time ev.x ev.y
      { recs := st1.recs ++ res.1.toList, prints := st1.prints,
        last_tap_pos := if res.2 ≠ Adv.nop then none else st1.last_tap_pos,
        map_time := advanceCursor m st1.map_time res.2 }
    | KeyAct.release =>
      let res := stdProcessRelease s a ev.time ev.x ev.y
      { recs := st1.recs ++ res.1.toList, prints := st1.prints,
        last_tap_pos := if res.2 ≠ Adv.nop then none else st1.last_tap_pos,
        map_time := advanceCursor m st1.map_time res.2 }

/-- The outer loop of `get_score_data`: one `stdStep` per replay event, in
order; the loop ends when the replay events run out. -/
def stdLoop (s : Settings) (m : List Aimpoint) (map_time_max : ℤ) :
    StdRunState → List ReplayEvent → StdRunState
  | st, [] => st
  | st, ev :: rest => stdLoop s m map_time_max (stdStep s m map_time_max st ev) rest

/-- Model of `StdScoreData.get_score_data`: returns the score stream and the lines
written to standard output.  (On an empty filtered map the source indexes
into an empty array and fails; that case returns empty output here and is
never exercised below.) -/
def getScoreData (s : Settings) (map_data : List Aimpoint)
    (replay_data : List ReplayEvent) : List ScoreRecord × List String :=
  let m := filterSingleRelease map_data
  match m with
  | [] => ([], [])
  | a0 :: _ =>
    let st := stdLoop s m (lastTimeD m)
      { recs := [], prints := [], last_tap_pos := none, map_time := a0.time }
      (getReducedReplayData replay_data)
    (st.recs, st.prints)

/-- C3 counterexample: one hit-circle at t=1000 whose windows lie entirely
after the only replay event (FREE at t=0).  The run ends with the aimpoint
unjudged and emits no record at all — there is no end-of-replay FREE sweep. -/
theorem std_no_sweep_cex :
    getScoreData {}
      [⟨1000, 500, 500, AimRole.press, ObjKind.circle, 0⟩,
       ⟨1001, 500, 500, AimRole.release, ObjKind.circle, 0⟩]
      [⟨0, 0, 0, KeyAct.free⟩] = ([], []) ∧
    filterSingleRelease
      [⟨1000, 500, 500, AimRole.press, ObjKind.circle, 0⟩,
       ⟨1001, 500, 500, AimRole.release, ObjKind.circle, 0⟩] =
      [⟨1000, 500, 500, AimRole.press, ObjKind.circle, 0⟩] := by
  constructor <;> decide

/-- C3 amended: the std engine performs no end-of-replay sweep.  The outer
loop of `get_score_data` returns as soon as the replay events are exhausted,
leaving the run state — and hence the score stream — unchanged; aimpoints
whose FREE deadline falls after the last replay event produce no record. -/
theorem std_no_end_of_replay_sweep (s : Settings) (m : List Aimpoint)
    (map_time_max : ℤ) (st : StdRunState) :
    stdLoop s m map_time_max st [] = st := rfl

/-- C5 counterexample: slider PRESS@100 HOLD@350 HOLD@600 RELEASE@750, with
`miss_slider` on and `recoverable_missaim` off (`neg_hld_range = 50` so the
on-time hold is judged).  The cursor misses HOLD@350 (MISS, NOTE advancement
past the object) — yet the later HOLD@600 of the same hit-object still
produces an AIM_HOLD record, because dispatch processes the first visible
aimpoint regardless of the map cursor. -/
theorem std_slider_miss_cascade_cex :
    getScoreData { neg_hld_range := 50, recoverable_missaim := false }
      [⟨100, 0, 0, AimRole.press, ObjKind.slider, 0⟩,
       ⟨350, 100, 0, AimRole.hold, ObjKind.slider, 0⟩,
       ⟨600, 200, 0, AimRole.hold, ObjKind.slider, 0⟩,
       ⟨750, 300, 0, AimRole.release, ObjKind.slider, 0⟩]
      [⟨100, 0, 0, KeyAct.press⟩, ⟨350, 500, 500, KeyAct.hold⟩,
       ⟨600, 200, 0, KeyAct.hold⟩] =
      ([⟨100, some 100, some (0, 0), some (0, 0), SType.hitp, KeyAct.press⟩,
        ⟨350, some 350, some (500, 500), some (100, 0), SType.miss, KeyAct.hold⟩,
        ⟨600, some 600, some (200, 0), some (200, 0), SType.aimh, KeyAct.hold⟩], []) := by
  decide

/-- C5 amended: with `miss_slider` true, a MISS emitted by the hold processor
always advances by NOTE, which jumps the map cursor to the next hit-object's
first aimpoint (or past the end); the cursor therefore never revisits the
remaining aimpoints of the object, but visible-window dispatch can still emit
records for them (see the counterexample). -/
theorem std_hold_miss_advances_note (s : Settings) (a : Aimpoint)
    (t x y : ℤ) (r : ScoreRecord) (c : Adv)
    (hms : s.miss_slider = true)
    (heq : stdProcessHold s a t x y = (some r, c))
    (hmiss : r.type = SType.miss) :
    c = Adv.note ∧
    ∀ (m : List Aimpoint) (mt : ℤ),
      advanceCursor m mt Adv.note =
        (match getNoteAfter m mt with
         | none => lastTimeD m + 1
         | some b => b.time) := by
  refine ⟨?_, fun m mt => rfl⟩
  simp only [stdProcessHold, hms] at heq
  split_ifs at heq <;>
    simp only [Prod.mk.injEq, Option.some.injEq, reduceCtorEq, false_and] at heq <;>
    first
      | exact heq.2.symm
      | (rw [← heq.1] at hmiss; simp at hmiss)

/-- Witness for C5: the hold processor at the missed HOLD@350 of the
counterexample run indeed advances by NOTE. -/
theorem std_hold_miss_advances_note_witness :
    (stdProcessHold { neg_hld_range := 50, recoverable_missaim := false }
        ⟨350, 100, 0, AimRole.hold, ObjKind.slider, 0⟩ 350 500 500 =
      (some ⟨350, some 350, some (500, 500), some (100, 0), SType.miss, KeyAct.hold⟩,
       Adv.note)) ∧ (Adv.note = Adv.note) :=
  ⟨by decide,
   (std_hold_miss_advances_note { neg_hld_range := 50, recoverable_missaim := false }
      ⟨350, 100, 0, AimRole.hold, ObjKind.slider, 0⟩ 350 500 500
      ⟨350, some 350, some (500, 500), some (100, 0), SType.miss, KeyAct.hold⟩
      Adv.note rfl (by decide) rfl).1⟩

/-- With `require_tap_press` true, FREE processing writes nothing to standard
output (the `print` calls live in the `require_aim_press and not
require_tap_press` branch only). -/
theorem stdProcessFree_no_prints (s : Settings) (a : Aimpoint) (t x y : ℤ)
    (lt : Option (ℤ × ℤ)) (htap : s.require_tap_press = true) :
    (stdProcessFree s a t x y lt).2.2 = [] := by
  unfold stdProcessFree
  rcases a with ⟨at_, ax, ay, atype, aobj, aoi⟩
  cases atype <;>
    simp only [htap, Bool.not_true, Bool.and_false, Bool.false_eq_true, if_false] <;>
    split_ifs <;> rfl

/-- Catch-up preserves the print log when `require_tap_press` is true. -/
theorem stdCatchUp_no_prints (s : Settings) (m : List Aimpoint)
    (map_time_max : ℤ) (ev : ReplayEvent) (fuel : ℕ) (st : StdRunState)
    (htap : s.require_tap_press = true) :
    (stdCatchUp s m map_time_max ev fuel st).prints = st.prints := by
  induction fuel generalizing st with
  | zero => rfl
  | succ n ih =>
    unfold stdCatchUp
    split_ifs with h1 h2
    · rfl
    · rfl
    · cases hfind : m.find? (fun a => decide (a.time = st.map_time)) with
      | none => rfl
      | some a =>
        simp only
        split_ifs with hadv
        · rfl
        · rw [ih]
          simp [stdProcessFree_no_prints s a ev.time ev.x ev.y st.last_tap_pos htap]

/-- One outer-loop step preserves the print log when `require_tap_press` is
true. -/
theorem stdStep_no_prints (s : Settings) (m : List Aimpoint)
    (map_time_max : ℤ) (st : StdRunState) (ev : ReplayEvent)
    (htap : s.require_tap_press = true) :
    (stdStep s m map_time_max st ev).prints = st.prints := by
  unfold stdStep
  cases hv : m.filter
      (fun a => decide (ev.time ≤ a.time) && decide (a.time ≤ ev.time + s.ar_ms)) with
  | nil => exact stdCatchUp_no_prints s m map_time_max ev _ st htap
  | cons a rest =>
    cases ev with
    | mk t x y k =>
      have hc := stdCatchUp_no_prints s m map_time_max ⟨t, x, y, k⟩ (m.length + 1) st htap
      cases k
      · dsimp only
        rw [stdProcessFree_no_prints s a t x y _ htap, List.append_nil]
        exact hc
      · dsimp only
        exact hc
      · dsimp only
        exact hc
      · dsimp only
        exact hc

/-- C9 amended: determinism holds by construction (the engine is a pure
function of map, replay and settings), and with `require_tap_press` true a
run writes nothing to standard output; the claimed unconditional absence of
I/O fails because FREE processing prints diagnostics when `require_aim_press`
is true and `require_tap_press` is false (see the counterexample). -/
theorem std_no_io_when_tap_required (s : Settings) (map_data : List Aimpoint)
    (replay_data : List ReplayEvent) (htap : s.require_tap_press = true) :
    (getScoreData s map_data replay_data).2 = [] := by
  unfold getScoreData
  cases hm : filterSingleRelease map_data with
  | nil => rfl
  | cons a0 rest =>
    simp only
    generalize hst : (⟨[], [], none, a0.time⟩ : StdRunState) = st0
    have hpr : st0.prints = [] := by rw [← hst]
    generalize getReducedReplayData replay_data = evs
    clear hst hm
    induction evs generalizing st0 with
    | nil => exact hpr
    | cons ev rest ih =>
      exact ih _ ((stdStep_no_prints s _ _ st0 ev htap).trans hpr)

/-- Witness for C9: the C3 input under default settings (tap required)
produces an empty print log. -/
theorem std_no_io_when_tap_required_witness :
    (getScoreData {}
      [⟨1000, 500, 500, AimRole.press, ObjKind.circle, 0⟩,
       ⟨1001, 500, 500, AimRole.release, ObjKind.circle, 0⟩]
      [⟨0, 0, 0, KeyAct.free⟩]).2 = [] :=
  std_no_io_when_tap_required {}
    [⟨1000, 500, 500, AimRole.press, ObjKind.circle, 0⟩,
     ⟨1001, 500, 500, AimRole.release, ObjKind.circle, 0⟩]
    [⟨0, 0, 0, KeyAct.free⟩] rfl

/-- Attribute dictionary of a Python object: keys with `ℤ` values, in
insertion order (booleans are 0/1; the doubled-radius convention applies to
the radius fields). -/
def lookupAttr : List (String × ℤ) → String → Option ℤ
  | [], _ => none
  | (k1, v1) :: rest, k => if k1 = k then some v1 else lookupAttr rest k

/-- Model of `object.__setattr__`: update in place or append (Python dict update). -/
def setAttrRaw : List (String × ℤ) → String → ℤ → List (String × ℤ)
  | [], k, v => [(k, v)]
  | (k1, v1) :: rest, k, v =>
    if k1 = k then (k, v) :: rest else (k1, v1) :: setAttrRaw rest k v

/-- Model of `hasattr(self, key)`. -/
def hasattr (attrs : List (String × ℤ)) (k : String) : Bool :=
  (lookupAttr attrs k).isSome

/-- Message of the `KeyError` raised for an unknown setting name. -/
def keyErrorUnknown : String := "KeyError: setting does not exist"

/-- Message of the `KeyError` raised for the literal frozen-flag name. -/
def keyErrorLocked : String := "KeyError: frozen flag is value locked"

/-- The mangled instance-attribute name of `self.__is_frozen` inside class
`Settings`. -/
def frozenKey : String := "_Settings__is_frozen"

/-- Model of `StdScoreData.Settings.__setattr__`: if the frozen flag is absent
(`AttributeError` path) it is created false and the write goes through; if
the flag is falsy the write goes through; otherwise an unknown name raises
`KeyError`, the literal name `__is_frozen` raises `KeyError`, and any other
write goes through via `object.__setattr__`. -/
def settingsSetattr (attrs : List (String × ℤ)) (k : String) (v : ℤ) :
    Except String (List (String × ℤ)) :=
  match lookupAttr attrs frozenKey with
  | none => Except.ok (setAttrRaw (setAttrRaw attrs frozenKey 0) k v)
  | some fz =>
    if fz = 0 then Except.ok (setAttrRaw attrs k v)
    else if ¬ hasattr attrs k then Except.error keyErrorUnknown
    else if k = "__is_frozen" then Except.error keyErrorLocked
    else Except.ok (setAttrRaw attrs k v)

/-- Applies a sequence of `Settings.__setattr__` calls, keeping the object
unchanged on an error (never hit during construction). -/
def applyWrites (attrs : List (String × ℤ)) : List (String × ℤ) → List (String × ℤ)
  | [] => attrs
  | (k, v) :: rest =>
    match settingsSetattr attrs k v with
    | Except.ok attrs2 => applyWrites attrs2 rest
    | Except.error _ => applyWrites attrs rest

/-- The assignments of `Settings.__init__`, in program order (radius values
doubled per the half-pixel convention; booleans as 0/1). -/
def initWrites : List (String × ℤ) :=
  [(frozenKey, 0),
   ("neg_hit_miss_range", 200), ("neg_hit_range", 100),
   ("pos_hit_range", 100), ("pos_hit_miss_range", 200),
   ("neg_rel_miss_range", 1000), ("neg_rel_range", 500),
   ("pos_rel_range", 500), ("pos_rel_miss_range", 1000),
   ("neg_hld_range", 0), ("pos_hld_range", 1000),
   ("hitobject_radius", 73), ("release_radius", 200), ("follow_radius", 200),
   ("ar_ms", 450),
   ("notelock", 1), ("dynamic_window", 0), ("blank_miss", 0),
   ("recoverable_release", 1), ("release_miss", 1), ("miss_slider", 1),
   ("press_miss", 1), ("recoverable_missaim", 1),
   ("overlap_miss_handling", 0), ("overlap_hit_handling", 0),
   ("press_block", 0), ("release_block", 0),
   ("require_tap_press", 1), ("require_tap_release", 1), ("require_tap_hold", 1),
   ("require_aim_press", 1), ("require_aim_release", 1), ("require_aim_hold", 1),
   (frozenKey, 1)]

/-- The attribute state of a freshly constructed (frozen) `Settings` object. -/
def initSettings : List (String × ℤ) := applyWrites [] initWrites

/-- The attribute state mid-construction (frozen flag still false): the
prefix of `__init__` up to the timing windows. -/
def preFreezeSettings : List (String × ℤ) := applyWrites [] (initWrites.take 5)

/-- Updating an existing key stores the new value. -/
theorem lookup_setAttrRaw (attrs : List (String × ℤ)) (k : String) (v : ℤ) :
    lookupAttr (setAttrRaw attrs k v) k = some v := by
  induction attrs with
  | nil => simp [setAttrRaw, lookupAttr]
  | cons p rest ih =>
    cases p with
    | mk k1 v1 =>
      by_cases h : k1 = k
      · simp [setAttrRaw, lookupAttr, h]
      · simp [setAttrRaw, lookupAttr, h, ih]

/-- C4 counterexample: after construction the settings object is frozen
(`_Settings__is_frozen = 1`), yet a write to the recognized option
`blank_miss` raises nothing and changes the stored value — and during
construction (frozen flag still 0) a write to an unrecognized name also
raises nothing and creates the attribute. -/
theorem settings_freeze_cex :
    lookupAttr initSettings frozenKey = some 1 ∧
    lookupAttr initSettings "blank_miss" = some 0 ∧
    settingsSetattr initSettings "blank_miss" 1 =
      Except.ok (setAttrRaw initSettings "blank_miss" 1) ∧
    lookupAttr (setAttrRaw initSettings "blank_miss" 1) "blank_miss" = some 1 ∧
    lookupAttr preFreezeSettings frozenKey = some 0 ∧
    hasattr preFreezeSettings "bogus_option" = false ∧
    settingsSetattr preFreezeSettings "bogus_option" 7 =
      Except.ok (setAttrRaw preFreezeSettings "bogus_option" 7) := by
  refine ⟨?_, ?_, ?_, ?_, ?_, ?_, ?_⟩ <;> first | decide | rfl

/-- C4 amended: after construction, a write to a name that is not an
existing attribute raises `KeyError`; a write to any existing attribute —
recognized options and the mangled frozen flag alike — succeeds and updates
the stored value (the freeze guards only against unknown names); during
construction, before the flag is set, every write succeeds. -/
theorem settings_setattr_after_freeze (k : String) (v : ℤ) :
    (hasattr initSettings k = false →
      settingsSetattr initSettings k v = Except.error keyErrorUnknown) ∧
    (hasattr initSettings k = true →
      settingsSetattr initSettings k v = Except.ok (setAttrRaw initSettings k v) ∧
      lookupAttr (setAttrRaw initSettings k v) k = some v) := by
  have hfz : lookupAttr initSettings frozenKey = some 1 := by decide
  constructor
  · intro hk
    unfold settingsSetattr
    rw [hfz]
    simp [hk]
  · intro hk
    have hne : ¬ k = "__is_frozen" := by
      intro h
      rw [h] at hk
      exact absurd hk (by decide)
    unfold settingsSetattr
    rw [hfz]
    simp [hk, hne, lookup_setAttrRaw]

/-- Witness for C4 (amended): the recognized option `miss_slider` exists, so
its post-freeze write succeeds and stores the new value. -/
theorem settings_setattr_after_freeze_witness :
    hasattr initSettings "miss_slider" = true ∧
    (settingsSetattr initSettings "miss_slider" 0 =
      Except.ok (setAttrRaw initSettings "miss_slider" 0) ∧
     lookupAttr (setAttrRaw initSettings "miss_slider" 0) "miss_slider" = some 0) :=
  ⟨by decide, (settings_setattr_after_freeze "miss_slider" 0).2 (by decide)⟩

/-- Judgment type of a mania score record
(`ManiaScoreData.TYPE_HITP/HITR/MISS/EMPTY`). -/
inductive MType where
  | hitp
  | hitr
  | miss
  | empty
deriving DecidableEq, Repr

/-- One row of a mania column's score data:
`[replay_t, map_t, type, map_idx]`; `np.nan` and `None` are `none`. -/
structure MRecord where
  replay_t : ℤ
  map_t : Option ℤ
  type : MType
  map_idx : Option ℕ
deriving DecidableEq, Repr

/-- The class attributes of `ManiaScoreData` consulted by its processors,
with their class-level default values. -/
structure ManiaCfg where
  pos_hit_range : ℤ := 100
  neg_hit_range : ℤ := 100
  pos_hit_miss_range : ℤ := 200
  neg_hit_miss_range : ℤ := 200
  pos_rel_range : ℤ := 300
  neg_rel_range : ℤ := 300
  pos_rel_miss_range : ℤ := 500
  neg_rel_miss_range : ℤ := 500
  notelock : Bool := true
  dynamic_window : Bool := false
  blank_miss : Bool := false
  lazy_sliders : Bool := false
  overlap_miss_handling : Bool := false
  overlap_hit_handling : Bool := false
deriving DecidableEq, Repr

/-- Message of `ManiaScoreDataError` from the press processor. -/
def maniaPressError : String := "ManiaScoreDataError: press scoring processing error"

/-- Message of `ManiaScoreDataError` from the release processor. -/
def maniaReleaseError : String := "ManiaScoreDataError: release scoring processing error"

/-- Message of the `UnboundLocalError` raised when the end-of-map fill loop
reads `replay_time` before any replay event has been processed. -/
def maniaUnboundError : String := "UnboundLocalError: replay_time referenced before assignment"

/-- Message of the `ValueError` for mismatched column counts. -/
def maniaColumnsError : String := "ValueError: number of columns between map and replay do not match"

/-- Model of `ManiaScoreData.__process_press` on the sorted per-column event times.
Out-of-range reads (`map_times[map_idx + 1]` on an event list whose last
entry is a PRESS) default to time 0; every input below keeps them in range. -/
def maniaProcessPress (cfg : ManiaCfg) (map_times : List ℤ) (map_idx : ℕ)
    (replay_time : ℤ) : Except String (Option MRecord × ℕ) :=
  let map_t := map_times.getD map_idx 0
  let time_offset := replay_time - map_t
  let is_single_note := decide (map_times.getD (map_idx + 1) 0 - map_t ≤ 1)
  if time_offset ≤ -cfg.neg_hit_miss_range then
    Except.ok
      ((if cfg.blank_miss then some ⟨replay_time, none, MType.empty, none⟩ else none), 0)
  else if -cfg.neg_hit_miss_range < time_offset ∧ time_offset ≤ -cfg.neg_hit_range then
    Except.ok (some ⟨replay_time, some map_t, MType.miss, some map_idx⟩, 2)
  else if -cfg.neg_hit_range < time_offset ∧ time_offset ≤ cfg.pos_hit_range then
    Except.ok (some ⟨replay_time, some map_t, MType.hitp, some map_idx⟩,
      if is_single_note || cfg.lazy_sliders then 2 else 1)
  else if cfg.pos_hit_range < time_offset ∧ time_offset ≤ cfg.pos_hit_miss_range then
    Except.ok (some ⟨replay_time, some map_t, MType.miss, some map_idx⟩, 2)
  else if cfg.pos_hit_miss_range < time_offset then
    Except.ok
      ((if cfg.blank_miss then some ⟨replay_time, none, MType.empty, none⟩ else none), 0)
  else Except.error maniaPressError

/-- Model of `ManiaScoreData.__process_release`; the `map_times[map_idx - 1]` read uses
truncated subtraction (index 0 stays 0), exercised only at indices > 0
below. -/
def maniaProcessRelease (cfg : ManiaCfg) (map_times : List ℤ) (map_idx : ℕ)
    (replay_time : ℤ) : Except String (Option MRecord × ℕ) :=
  if cfg.lazy_sliders then Except.ok (none, 1)
  else
  let map_t := map_times.getD map_idx 0
  let time_offset := replay_time - map_t
  let is_single_note := decide (map_t - map_times.getD (map_idx - 1) 0 ≤ 1)
  if is_single_note then Except.ok (none, 1)
  else if time_offset ≤ -cfg.neg_rel_miss_range then
    Except.ok
      ((if cfg.blank_miss then some ⟨replay_time, none, MType.empty, none⟩ else none), 0)
  else if -cfg.neg_rel_miss_range < time_offset ∧ time_offset ≤ -cfg.neg_rel_range then
    Except.ok (some ⟨replay_time, some map_t, MType.miss, some map_idx⟩, 1)
  else if -cfg.neg_rel_range < time_offset ∧ time_offset ≤ cfg.pos_rel_range then
    Except.ok (some ⟨replay_time, some map_t, MType.hitr, some map_idx⟩, 1)
  else if cfg.pos_rel_range < time_offset ∧ time_offset ≤ cfg.pos_rel_miss_range then
    Except.ok (some ⟨replay_time, some map_t, MType.miss, some map_idx⟩, 1)
  else if cfg.pos_rel_miss_range < time_offset then
    Except.ok
      ((if cfg.blank_miss then some ⟨replay_time, none, MType.empty, none⟩ else none), 0)
  else Except.error maniaReleaseError

/-- The `note_type` as maintained by the column loop: the type of the event at
the cursor, or FREE past the end. -/
def noteTypeAt (map_col : List (ℤ × KeyAct)) (i : ℕ) : KeyAct :=
  match map_col.get? i with
  | some p => p.2
  | none => KeyAct.free

/-- Model of `ManiaScoreData.__process_free`. -/
def maniaProcessFree (cfg : ManiaCfg) (note_type : KeyAct) (map_times : List ℤ)
    (map_idx : ℕ) (replay_time : ℤ) : Option MRecord × ℕ :=
  if map_times.length ≤ map_idx then (none, 0)
  else
  let map_t := map_times.getD map_idx 0
  let time_offset := replay_time - map_t
  match note_type with
  | KeyAct.press =>
    if cfg.pos_hit_miss_range < time_offset then
      (some ⟨replay_time, some map_t, MType.miss, some map_idx⟩, 2)
    else (none, 0)
  | KeyAct.release =>
    if cfg.pos_rel_miss_range < time_offset then
      let is_single_note := decide (map_t - map_times.getD (map_idx - 1) 0 ≤ 1)
      ((if ¬ is_single_note ∧ ¬ cfg.lazy_sliders then
          some ⟨replay_time, some map_t, MType.miss, some map_idx⟩
        else none), 1)
    else (none, 0)
  | _ => (none, 1)

/-- The processor `maniaProcessFree` cannot advance past the end of the event list. -/
theorem maniaProcessFree_stop (cfg : ManiaCfg) (nt : KeyAct) (map_times : List ℤ)
    (map_idx : ℕ) (rt : ℤ) (h : map_times.length ≤ map_idx) :
    (maniaProcessFree cfg nt map_times map_idx rt).2 = 0 := by
  unfold maniaProcessFree
  rw [if_pos h]

/-- The inner catch-up loop of the mania column run: FREE-process and advance
until the advancement is zero.  `fuel` bounds the iterations; every nonzero
advancement moves the cursor strictly forward inside the event list, so the
`map_col.length + 1` budget used by the column loop always suffices. -/
def maniaFreeLoop (cfg : ManiaCfg) (map_col : List (ℤ × KeyAct)) (replay_time : ℤ) :
    ℕ → ℕ → List MRecord → List MRecord × ℕ
  | 0, map_idx, acc => (acc, map_idx)
  | fuel + 1, map_idx, acc =>
    let res := maniaProcessFree cfg (noteTypeAt map_col map_idx)
      (map_col.map Prod.fst) map_idx replay_time
    if res.2 = 0 then (acc ++ res.1.toList, map_idx)
    else maniaFreeLoop cfg map_col replay_time fuel (map_idx + res.2) (acc ++ res.1.toList)

/-- The per-column main loop of `ManiaScoreData.get_score_data`: one
iteration per replay event, then the end-of-map fill.  `replay_time?` is the
latest value of the Python local `replay_time`, which persists across
columns; the fill loop raises `UnboundLocalError` when it runs before any
replay event has ever been processed.  (As in the source, the fill loop
indexes `map_col[map_idx]` without advancing, so every filled EMPTY row
carries the first remaining event's time.) -/
def maniaColLoop (cfg : ManiaCfg) (map_col : List (ℤ × KeyAct)) :
    List (ℤ × KeyAct) → ℕ → Option ℤ → List MRecord →
    Except String (List MRecord × Option ℤ × ℕ)
  | [], map_idx, replay_time?, acc =>
    if map_idx < map_col.length then
      match replay_time? with
      | none => Except.error maniaUnboundError
      | some rt =>
        Except.ok
          (acc ++ List.replicate (map_col.length - map_idx)
            ⟨rt, some ((map_col.map Prod.fst).getD map_idx 0), MType.empty, none⟩,
           some rt, map_idx)
    else Except.ok (acc, replay_time?, map_idx)
  | (rt, rtype) :: rest, map_idx, _, acc =>
    let fr := maniaFreeLoop cfg map_col rt (map_col.length + 1) map_idx acc
    if rtype = KeyAct.press ∧ noteTypeAt map_col fr.2 = KeyAct.press then
      match maniaProcessPress cfg (map_col.map Prod.fst) fr.2 rt with
      | Except.error e => Except.error e
      | Except.ok res =>
        maniaColLoop cfg map_col rest (fr.2 + res.2) (some rt) (fr.1 ++ res.1.toList)
    else if rtype = KeyAct.release ∧ noteTypeAt map_col fr.2 = KeyAct.release then
      match maniaProcessRelease cfg (map_col.map Prod.fst) fr.2 rt with
      | Except.error e => Except.error e
      | Except.ok res =>
        maniaColLoop cfg map_col rest (fr.2 + res.2) (some rt) (fr.1 ++ res.1.toList)
    else maniaColLoop cfg map_col rest fr.2 (some rt) fr.1

/-- Stable insertion into a time-sorted event list (equal times keep the
inserted element first, preserving input order overall). -/
def insertSorted (p : ℤ × KeyAct) : List (ℤ × KeyAct) → List (ℤ × KeyAct)
  | [] => [p]
  | q :: rest => if q.1 < p.1 then q :: insertSorted p rest else p :: q :: rest

/-- Stable sort of column events by time (the `argsort` of the source; ties
keep list order, i.e. presses before releases at equal times). -/
def sortByTime : List (ℤ × KeyAct) → List (ℤ × KeyAct)
  | [] => []
  | p :: rest => insertSorted p (sortByTime rest)

/-- Expansion of one column's (start, end) note rows into the time-sorted
role-tagged event list (`map_col` / `replay_col` of `get_score_data`):
presses then releases, stably sorted by time. -/
def buildColumn (notes : List (ℤ × ℤ)) : List (ℤ × KeyAct) :=
  sortByTime ((notes.map (fun n => (n.1, KeyAct.press))) ++
    (notes.map (fun n => (n.2, KeyAct.release))))

/-- Model of `ManiaActionData.num_keys` on (start, end, col) rows:
`max(col) - min(col) + 1`, and 0 for no rows. -/
def numKeys (rows : List (ℤ × ℤ × ℕ)) : ℕ :=
  match rows.map (fun r => r.2.2) with
  | [] => 0
  | c :: cs => (cs.foldl max c) - (cs.foldl min c) + 1

/-- Runs the columns in index order, threading the persistent `replay_time`
local across columns. -/
def maniaRunCols (cfg : ManiaCfg) (map_data replay_data : List (ℤ × ℤ × ℕ)) :
    List ℕ → Option ℤ → Except String (List (List MRecord))
  | [], _ => Except.ok []
  | c :: cs, rt? =>
    let mapCol := buildColumn
      ((map_data.filter (fun r => decide (r.2.2 = c))).map (fun r => (r.1, r.2.1)))
    let repCol := buildColumn
      ((replay_data.filter (fun r => decide (r.2.2 = c))).map (fun r => (r.1, r.2.1)))
    match maniaColLoop cfg mapCol repCol 0 rt? [] with
    | Except.error e => Except.error e
    | Except.ok (recs, rt2, _) =>
      match maniaRunCols cfg map_data replay_data cs rt2 with
      | Except.error e => Except.error e
      | Except.ok rest => Except.ok (recs :: rest)

/-- Model of `ManiaScoreData.get_score_data` on (start, end, col) action rows: checks
the column counts, then scores each column independently; the result is the
per-column list of score rows.  (A column with no map rows at all would crash
the source at its initial `note_type` read; here such a column runs with a
FREE cursor — no input below exercises that case.) -/
def maniaGetScoreData (cfg : ManiaCfg) (map_data replay_data : List (ℤ × ℤ × ℕ)) :
    Except String (List (List MRecord)) :=
  if numKeys map_data ≠ numKeys replay_data then Except.error maniaColumnsError
  else maniaRunCols cfg map_data replay_data (List.range (numKeys map_data)) none

/-- Inserting one element grows the length by one. -/
theorem insertSorted_length (p : ℤ × KeyAct) (l : List (ℤ × KeyAct)) :
    (insertSorted p l).length = l.length + 1 := by
  induction l with
  | nil => rfl
  | cons q rest ih =>
    unfold insertSorted
    split_ifs <;> simp [ih]

/-- Sorting preserves the length. -/
theorem sortByTime_length (l : List (ℤ × KeyAct)) :
    (sortByTime l).length = l.length := by
  induction l with
  | nil => rfl
  | cons p rest ih =>
    unfold sortByTime
    rw [insertSorted_length, ih, List.length_cons]

/-- A column of `n` notes expands to `2n` events. -/
theorem buildColumn_length (notes : List (ℤ × ℤ)) :
    (buildColumn notes).length = 2 * notes.length := by
  unfold buildColumn
  rw [sortByTime_length, List.length_append, List.length_map, List.length_map]
  omega

/-- The numeric value of a std advancement code (`__ADV_NOP/AIMP/NOTE`),
for comparison with the mania cursor advancement. -/
def advToNat : Adv → ℕ
  | Adv.nop => 0
  | Adv.aimp => 1
  | Adv.note => 2

/-- The std settings corresponding to a mania configuration: same press
windows, same `blank_miss`, `press_miss` on, tap required, and the spatial
test vacuous (the aimpoint and the cursor are both placed at the origin). -/
def stdOfMania (cfg : ManiaCfg) : Settings :=
  { neg_hit_miss_range := cfg.neg_hit_miss_range,
    neg_hit_range := cfg.neg_hit_range,
    pos_hit_range := cfg.pos_hit_range,
    pos_hit_miss_range := cfg.pos_hit_miss_range,
    blank_miss := cfg.blank_miss }

/-- The std PRESS aimpoint corresponding to mania map event `map_idx`: same
time, at the origin, of CIRCLE kind for a single note and SLIDER kind for a
long note. -/
def stdOfManiaAimpoint (map_times : List ℤ) (map_idx : ℕ) : Aimpoint :=
  ⟨map_times.getD map_idx 0, 0, 0, AimRole.press,
   (if map_times.getD (map_idx + 1) 0 - map_times.getD map_idx 0 ≤ 1 then
      ObjKind.circle
    else ObjKind.slider), 0⟩

/-- C7 amended: zone-by-zone agreement of the mania press processor with the
std §4.2 zone table over the same window values, with the spatial test
vacuous.  In the first four zones the judgments agree (EMPTY-if-blank / MISS
/ HIT_PRESS / MISS) and, when `lazy_sliders` is off, the mania advancement is
the numeric value of the std advancement (2 for a single-note press mirroring
NOTE, 1 for a long-note press mirroring AIMP); with `lazy_sliders` on a
long-note hit advances by 2 instead.  In the `> pos_hit_miss_range` zone the
advancements agree but the judgments differ under `blank_miss`: mania emits
EMPTY where std records nothing. -/
theorem mania_press_agrees_with_std (cfg : ManiaCfg) (map_times : List ℤ)
    (map_idx : ℕ) (t : ℤ)
    (h1 : 0 < cfg.neg_hit_range) (h2 : cfg.neg_hit_range ≤ cfg.neg_hit_miss_range)
    (h3 : 0 ≤ cfg.pos_hit_range) (h4 : cfg.pos_hit_range ≤ cfg.pos_hit_miss_range) :
    (t - map_times.getD map_idx 0 ≤ -cfg.neg_hit_miss_range →
      maniaProcessPress cfg map_times map_idx t =
        Except.ok
          ((if cfg.blank_miss then some ⟨t, none, MType.empty, none⟩ else none), 0) ∧
      stdProcessPress (stdOfMania cfg) (stdOfManiaAimpoint map_times map_idx) t 0 0 none =
        ((if cfg.blank_miss then some ⟨t, none, some (0, 0), none, SType.empty, KeyAct.press⟩
          else none), Adv.nop, none)) ∧
    (-cfg.neg_hit_miss_range < t - map_times.getD map_idx 0 →
     t - map_times.getD map_idx 0 ≤ -cfg.neg_hit_range →
      maniaProcessPress cfg map_times map_idx t =
        Except.ok
          (some ⟨t, some (map_times.getD map_idx 0), MType.miss, some map_idx⟩, 2) ∧
      stdProcessPress (stdOfMania cfg) (stdOfManiaAimpoint map_times map_idx) t 0 0 none =
        (some ⟨t, some (map_times.getD map_idx 0), some (0, 0), some (0, 0),
               SType.miss, KeyAct.press⟩, Adv.note, none)) ∧
    (-cfg.neg_hit_range < t - map_times.getD map_idx 0 →
     t - map_times.getD map_idx 0 ≤ cfg.pos_hit_range →
      maniaProcessPress cfg map_times map_idx t =
        Except.ok
          (some ⟨t, some (map_times.getD map_idx 0), MType.hitp, some map_idx⟩,
           if decide (map_times.getD (map_idx + 1) 0 - map_times.getD map_idx 0 ≤ 1) ||
              cfg.lazy_sliders then 2 else 1) ∧
      stdProcessPress (stdOfMania cfg) (stdOfManiaAimpoint map_times map_idx) t 0 0 none =
        (some ⟨t, some (map_times.getD map_idx 0), some (0, 0), some (0, 0),
               SType.hitp, KeyAct.press⟩,
         (if (stdOfManiaAimpoint map_times map_idx).obj = ObjKind.slider then Adv.aimp
          else Adv.note), none) ∧
      (cfg.lazy_sliders = false →
        (if decide (map_times.getD (map_idx + 1) 0 - map_times.getD map_idx 0 ≤ 1) ||
            cfg.lazy_sliders then 2 else 1) =
          advToNat (if (stdOfManiaAimpoint map_times map_idx).obj = ObjKind.slider then
            Adv.aimp else Adv.note))) ∧
    (cfg.pos_hit_range < t - map_times.getD map_idx 0 →
     t - map_times.getD map_idx 0 ≤ cfg.pos_hit_miss_range →
      maniaProcessPress cfg map_times map_idx t =
        Except.ok
          (some ⟨t, some (map_times.getD map_idx 0), MType.miss, some map_idx⟩, 2) ∧
      stdProcessPress (stdOfMania cfg) (stdOfManiaAimpoint map_times map_idx) t 0 0 none =
        (some ⟨t, some (map_times.getD map_idx 0), some (0, 0), some (0, 0),
               SType.miss, KeyAct.press⟩, Adv.note, none)) ∧
    (cfg.pos_hit_miss_range < t - map_times.getD map_idx 0 →
      maniaProcessPress cfg map_times map_idx t =
        Except.ok
          ((if cfg.blank_miss then some ⟨t, none, MType.empty, none⟩ else none), 0) ∧
      stdProcessPress (stdOfMania cfg) (stdOfManiaAimpoint map_times map_idx) t 0 0 none =
        (none, Adv.nop, none)) := by
  have hmb : missAimB 0 0 0 0 (73 : ℤ) = false := by decide
  refine ⟨?_, ?_, ?_, ?_, ?_⟩
  · intro hz
    constructor
    · unfold maniaProcessPress
      dsimp only
      rw [if_pos hz]
    · unfold stdProcessPress stdOfManiaAimpoint stdOfMania
      dsimp only
      rw [decide_eq_true hz]
      simp [hmb]
  · intro hza hzb
    constructor
    · unfold maniaProcessPress
      dsimp only
      rw [if_neg (by omega), if_pos (show _ ∧ _ from ⟨hza, hzb⟩)]
    · unfold stdProcessPress stdOfManiaAimpoint stdOfMania
      dsimp only
      rw [decide_eq_false (by omega : ¬ t - map_times.getD map_idx 0 ≤ -cfg.neg_hit_miss_range),
        decide_eq_true hza, decide_eq_true hzb]
      simp [hmb]
  · intro hza hzb
    refine ⟨?_, ?_, ?_⟩
    · unfold maniaProcessPress
      dsimp only
      rw [if_neg (by omega), if_neg (by omega), if_pos (show _ ∧ _ from ⟨hza, hzb⟩)]
    · unfold stdProcessPress stdOfManiaAimpoint stdOfMania
      dsimp only
      rw [decide_eq_false (by omega : ¬ t - map_times.getD map_idx 0 ≤ -cfg.neg_hit_miss_range),
        decide_eq_false (by omega : ¬ t - map_times.getD map_idx 0 ≤ -cfg.neg_hit_range),
        decide_eq_true hza, decide_eq_true hzb]
      simp [hmb]
    · intro hlazy
      rw [hlazy]
      unfold stdOfManiaAimpoint
      dsimp only
      by_cases hsn : map_times.getD (map_idx + 1) 0 - map_times.getD map_idx 0 ≤ 1
      · rw [decide_eq_true hsn, if_pos hsn]
        rfl
      · rw [decide_eq_false hsn, if_neg hsn]
        rfl
  · intro hza hzb
    constructor
    · unfold maniaProcessPress
      dsimp only
      rw [if_neg (by omega), if_neg (by omega), if_neg (by omega),
        if_pos (show _ ∧ _ from ⟨hza, hzb⟩)]
    · unfold stdProcessPress stdOfManiaAimpoint stdOfMania
      dsimp only
      rw [decide_eq_false (by omega : ¬ t - map_times.getD map_idx 0 ≤ -cfg.neg_hit_miss_range),
        decide_eq_false (by omega : ¬ t - map_times.getD map_idx 0 ≤ -cfg.neg_hit_range),
        decide_eq_false (by omega : ¬ t - map_times.getD map_idx 0 ≤ cfg.pos_hit_range),
        decide_eq_true hza, decide_eq_true hzb]
      simp [hmb]
  · intro hz
    constructor
    · unfold maniaProcessPress
      dsimp only
      rw [if_neg (by omega), if_neg (by omega), if_neg (by omega), if_neg (by omega),
        if_pos hz]
    · unfold stdProcessPress stdOfManiaAimpoint stdOfMania
      dsimp only
      rw [decide_eq_false (by omega : ¬ t - map_times.getD map_idx 0 ≤ -cfg.neg_hit_miss_range),
        decide_eq_false (by omega : ¬ t - map_times.getD map_idx 0 ≤ -cfg.neg_hit_range),
        decide_eq_false (by omega : ¬ t - map_times.getD map_idx 0 ≤ cfg.pos_hit_range),
        decide_eq_false (by omega : ¬ t - map_times.getD map_idx 0 ≤ cfg.pos_hit_miss_range)]
      simp [hmb]

/-- Witness for C7 (amended): default windows, a long note at t=100 (next
event at 600), pressed exactly on time — mania scores HIT_PRESS advancing 1,
std scores HIT_PRESS on the slider advancing AIMP. -/
theorem mania_press_agrees_with_std_witness :
    maniaProcessPress {} [100, 600] 0 100 =
      Except.ok (some ⟨100, some 100, MType.hitp, some 0⟩, 1) ∧
    stdProcessPress (stdOfMania {}) (stdOfManiaAimpoint [100, 600] 0) 100 0 0 none =
      (some ⟨100, some 100, some (0, 0), some (0, 0), SType.hitp, KeyAct.press⟩,
       Adv.aimp, none) := by
  have h := ((mania_press_agrees_with_std {} [100, 600] 0 100
    (by decide) (by decide) (by decide) (by decide)).2.2.1 (by decide) (by decide))
  exact ⟨h.1, h.2.1⟩

/-- C7 counterexample: the claimed exact agreement fails in two places.
With `blank_miss` on, at `time_offset = 300 > pos_hit_miss_range` on a long
note the mania processor emits an EMPTY record while the std table records
nothing; and with `lazy_sliders` on, an on-time long-note PRESS advances the
mania cursor by 2, not 1. -/
theorem mania_press_agreement_cex :
    maniaProcessPress { blank_miss := true } [100, 600] 0 400 =
      Except.ok (some ⟨400, none, MType.empty, none⟩, 0) ∧
    stdProcessPress (stdOfMania { blank_miss := true })
        (stdOfManiaAimpoint [100, 600] 0) 400 0 0 none = (none, Adv.nop, none) ∧
    maniaProcessPress { lazy_sliders := true } [100, 600] 0 100 =
      Except.ok (some ⟨100, some 100, MType.hitp, some 0⟩, 2) := by
  exact ⟨rfl, by decide, rfl⟩

/-- C10 counterexample: three columns, all with one single note; the replay
plays columns 0 and 2 but has no event in column 1 (the column counts still
match, both spanning 3 columns).  The run does NOT raise: the fill loop
reuses the stale `replay_time = 101` left over from column 0 and returns
EMPTY records for column 1 (both carrying the first remaining event's map
time, as the fill loop never advances its index). -/
theorem mania_empty_column_no_error_cex :
    maniaGetScoreData {} [(100, 101, 0), (100, 101, 1), (100, 101, 2)]
        [(100, 101, 0), (100, 101, 2)] =
      Except.ok
        [[⟨100, some 100, MType.hitp, some 0⟩],
         [⟨101, some 100, MType.empty, none⟩, ⟨101, some 100, MType.empty, none⟩],
         [⟨100, some 100, MType.hitp, some 0⟩]] ∧
    List.filter (fun r => decide (r.2.2 = 1))
      [((100 : ℤ), (101 : ℤ), (0 : ℕ)), (100, 101, 2)] = [] := by
  exact ⟨rfl, rfl⟩

/-- C10 amended: the unhandled `UnboundLocalError` does occur, but only when
the starved column is reached before any replay event has ever been
processed — canonically, when column 0 itself has map notes and no replay
events.  Later starved columns silently reuse the previous column's last
`replay_time` and are filled with EMPTY records instead. -/
theorem mania_first_column_unbound (cfg : ManiaCfg)
    (map_data replay_data : List (ℤ × ℤ × ℕ))
    (hc : numKeys map_data = numKeys replay_data)
    (hpos : 0 < numKeys map_data)
    (hmap : map_data.filter (fun r => decide (r.2.2 = 0)) ≠ [])
    (hrep : replay_data.filter (fun r => decide (r.2.2 = 0)) = []) :
    maniaGetScoreData cfg map_data replay_data = Except.error maniaUnboundError := by
  have hlen : 0 < (buildColumn
      ((map_data.filter (fun r => decide (r.2.2 = 0))).map (fun r => (r.1, r.2.1)))).length := by
    rw [buildColumn_length, List.length_map]
    have := List.length_pos.mpr hmap
    omega
  have hcol : maniaColLoop cfg
      (buildColumn ((map_data.filter (fun r => decide (r.2.2 = 0))).map (fun r => (r.1, r.2.1))))
      [] 0 none [] = Except.error maniaUnboundError := by
    unfold maniaColLoop
    rw [if_pos hlen]
  unfold maniaGetScoreData
  rw [if_neg (by simp [hc])]
  obtain ⟨k, hk⟩ : ∃ k, numKeys map_data = k + 1 := ⟨numKeys map_data - 1, by omega⟩
  rw [hk, List.range_succ_eq_map]
  unfold maniaRunCols
  rw [hrep]
  simp only [List.map_nil]
  rw [show buildColumn ([] : List (ℤ × ℤ)) = [] from rfl, hcol]

/-- Witness for C10 (amended): column 0 has a note and the replay has no
event in column 0 (its events sit in columns 1 and 2, so the counts match);
the run raises the unbound-variable error. -/
theorem mania_first_column_unbound_witness :
    maniaGetScoreData {} [(100, 101, 0), (100, 101, 1)]
        [(100, 101, 1), (5000, 5001, 2)] = Except.error maniaUnboundError :=
  mania_first_column_unbound {} [(100, 101, 0), (100, 101, 1)]
    [(100, 101, 1), (5000, 5001, 2)] (by decide) (by decide) (by decide) (by decide)

/-- The time of column event `i` (0 past the end, as `getD` in the
processors). -/
def timeAt (L : List (ℤ × KeyAct)) (i : ℕ) : ℤ := (L.map Prod.fst).getD i 0

/-- The map-event times of the records produced by press processing: the
HIT_PRESS and MISS rows whose map index points at a PRESS-role event. -/
def pressRecTimes (L : List (ℤ × KeyAct)) (recs : List MRecord) : List ℤ :=
  recs.filterMap (fun r =>
    match r.type, r.map_idx with
    | MType.hitp, some i => if noteTypeAt L i = KeyAct.press then r.map_t else none
    | MType.miss, some i => if noteTypeAt L i = KeyAct.press then r.map_t else none
    | _, _ => none)

/-- Times of the PRESS-role events among the first `n` column events. -/
def pressTimesBelow (L : List (ℤ × KeyAct)) (n : ℕ) : List ℤ :=
  ((L.take n).filter (fun p => p.2 = KeyAct.press)).map Prod.fst

/-- Column wellformedness: the sorted events alternate PRESS and RELEASE
starting with a PRESS, as produced by non-overlapping notes. -/
def Alternating (L : List (ℤ × KeyAct)) : Prop :=
  ∀ i : ℕ, ∀ hi : i < L.length,
    (L.get ⟨i, hi⟩).2 = (if i % 2 = 0 then KeyAct.press else KeyAct.release)

/-- The `note_type` of an in-range cursor under alternation. -/
theorem noteTypeAt_lt (L : List (ℤ × KeyAct)) (hAlt : Alternating L) (i : ℕ)
    (hi : i < L.length) :
    noteTypeAt L i = (if i % 2 = 0 then KeyAct.press else KeyAct.release) := by
  unfold noteTypeAt
  rw [List.get?_eq_get hi]
  exact hAlt i hi

/-- The `note_type` past the end is FREE. -/
theorem noteTypeAt_ge (L : List (ℤ × KeyAct)) (i : ℕ) (hi : L.length ≤ i) :
    noteTypeAt L i = KeyAct.free := by
  unfold noteTypeAt
  rw [List.get?_eq_none.mpr hi]

/-- A press-role cursor position is in range and even. -/
theorem noteTypeAt_press_elim (L : List (ℤ × KeyAct)) (hAlt : Alternating L) (i : ℕ)
    (h : noteTypeAt L i = KeyAct.press) : i < L.length ∧ i % 2 = 0 := by
  by_cases hi : i < L.length
  · refine ⟨hi, ?_⟩
    rw [noteTypeAt_lt L hAlt i hi] at h
    by_cases he : i % 2 = 0
    · exact he
    · rw [if_neg he] at h
      cases h
  · rw [noteTypeAt_ge L i (le_of_not_lt hi)] at h
    cases h

/-- The projection `pressRecTimes` distributes over append. -/
theorem pressRecTimes_append (L : List (ℤ × KeyAct)) (a b : List MRecord) :
    pressRecTimes L (a ++ b) = pressRecTimes L a ++ pressRecTimes L b :=
  List.filterMap_append a b _

/-- EMPTY fill rows contain no press-judged record. -/
theorem pressRecTimes_replicate_empty (L : List (ℤ × KeyAct)) (n : ℕ) (rt : ℤ)
    (mt : Option ℤ) :
    pressRecTimes L (List.replicate n ⟨rt, mt, MType.empty, none⟩) = [] := by
  induction n with
  | zero => rfl
  | succ k ih =>
    rw [List.replicate_succ]
    exact ih

/-- In-range `timeAt` is the event's time. -/
theorem timeAt_lt (L : List (ℤ × KeyAct)) (i : ℕ) (hi : i < L.length) :
    timeAt L i = (L.get ⟨i, hi⟩).1 := by
  unfold timeAt
  rw [List.getD_eq_get?, List.get?_map, List.get?_eq_get hi]
  rfl

/-- Extending the prefix past a PRESS event appends that event's time. -/
theorem pressTimesBelow_succ_press (L : List (ℤ × KeyAct)) (i : ℕ)
    (hi : i < L.length) (hp : (L.get ⟨i, hi⟩).2 = KeyAct.press) :
    pressTimesBelow L (i + 1) = pressTimesBelow L i ++ [timeAt L i] := by
  unfold pressTimesBelow
  rw [List.take_succ, List.getElem?_eq_getElem hi]
  rw [List.filter_append, List.map_append]
  congr 1
  have hp2 : (L[i]).2 = KeyAct.press := hp
  rw [timeAt_lt L i hi]
  have ht2 : (L.get ⟨i, hi⟩).1 = (L[i]).1 := rfl
  rw [ht2]
  simp [hp2]

/-- Extending the prefix past a non-PRESS event changes nothing. -/
theorem pressTimesBelow_succ_other (L : List (ℤ × KeyAct)) (i : ℕ)
    (hi : i < L.length) (hp : (L.get ⟨i, hi⟩).2 ≠ KeyAct.press) :
    pressTimesBelow L (i + 1) = pressTimesBelow L i := by
  unfold pressTimesBelow
  rw [List.take_succ, List.getElem?_eq_getElem hi]
  rw [List.filter_append, List.map_append]
  have hp2 : ¬ (L[i]).2 = KeyAct.press := hp
  simp [hp2]

/-- Extending the prefix beyond the list changes nothing. -/
theorem pressTimesBelow_succ_ge (L : List (ℤ × KeyAct)) (i : ℕ)
    (hi : L.length ≤ i) :
    pressTimesBelow L (i + 1) = pressTimesBelow L i := by
  unfold pressTimesBelow
  rw [List.take_succ, List.getElem?_eq_none hi]
  simp

/-- Crossing a PRESS event at `i` (alternating column) moves the press-time
prefix forward by exactly that event's time, whether the advance is 1 or 2. -/
theorem pressTimesBelow_cross (L : List (ℤ × KeyAct)) (hAlt : Alternating L)
    (i : ℕ) (hi : i < L.length) (hEven : i % 2 = 0) :
    pressTimesBelow L (i + 1) = pressTimesBelow L i ++ [timeAt L i] ∧
    pressTimesBelow L (i + 2) = pressTimesBelow L i ++ [timeAt L i] := by
  have hp : (L.get ⟨i, hi⟩).2 = KeyAct.press := by
    rw [hAlt i hi, if_pos hEven]
  have h1 := pressTimesBelow_succ_press L i hi hp
  refine ⟨h1, ?_⟩
  by_cases hi1 : i + 1 < L.length
  · have hodd : (i + 1) % 2 = 0 → False := by omega
    have hp1 : (L.get ⟨i + 1, hi1⟩).2 ≠ KeyAct.press := by
      rw [hAlt (i + 1) hi1]
      by_cases he : (i + 1) % 2 = 0
      · exact absurd he hodd
      · rw [if_neg he]
        intro hcon
        cases hcon
    rw [pressTimesBelow_succ_other L (i + 1) hi1 hp1, h1]
  · rw [pressTimesBelow_succ_ge L (i + 1) (le_of_not_lt hi1), h1]

/-- Shape of a press-processor call at a PRESS cursor under valid windows:
either no advance and no press-judged record, or an advance of 1 or 2 with
exactly one press-judged record carrying the event's time. -/
theorem maniaProcessPress_spec (cfg : ManiaCfg) (L : List (ℤ × KeyAct)) (i : ℕ) (t : ℤ)
    (hnt : noteTypeAt L i = KeyAct.press) :
    (∃ r, maniaProcessPress cfg (L.map Prod.fst) i t = Except.ok (r, 0) ∧
      pressRecTimes L r.toList = []) ∨
    (∃ r adv, maniaProcessPress cfg (L.map Prod.fst) i t = Except.ok (r, adv) ∧
      (adv = 1 ∨ adv = 2) ∧ pressRecTimes L r.toList = [timeAt L i]) := by
  unfold maniaProcessPress
  dsimp only
  by_cases c1 : t - (L.map Prod.fst).getD i 0 ≤ -cfg.neg_hit_miss_range
  · rw [if_pos c1]
    left
    refine ⟨_, rfl, ?_⟩
    by_cases hb : cfg.blank_miss = true
    · rw [hb]
      rfl
    · rw [Bool.not_eq_true] at hb
      rw [hb]
      rfl
  · rw [if_neg c1]
    by_cases c2 : -cfg.neg_hit_miss_range < t - (L.map Prod.fst).getD i 0 ∧
        t - (L.map Prod.fst).getD i 0 ≤ -cfg.neg_hit_range
    · rw [if_pos c2]
      right
      refine ⟨_, 2, rfl, Or.inr rfl, ?_⟩
      simp [pressRecTimes, hnt, timeAt]
    · rw [if_neg c2]
      by_cases c3 : -cfg.neg_hit_range < t - (L.map Prod.fst).getD i 0 ∧
          t - (L.map Prod.fst).getD i 0 ≤ cfg.pos_hit_range
      · rw [if_pos c3]
        right
        by_cases hs : (decide ((L.map Prod.fst).getD (i + 1) 0 -
            (L.map Prod.fst).getD i 0 ≤ 1) || cfg.lazy_sliders) = true
        · rw [if_pos hs]
          refine ⟨_, 2, rfl, Or.inr rfl, ?_⟩
          simp [pressRecTimes, hnt, timeAt]
        · rw [if_neg hs]
          refine ⟨_, 1, rfl, Or.inl rfl, ?_⟩
          simp [pressRecTimes, hnt, timeAt]
      · rw [if_neg c3]
        by_cases c4 : cfg.pos_hit_range < t - (L.map Prod.fst).getD i 0 ∧
            t - (L.map Prod.fst).getD i 0 ≤ cfg.pos_hit_miss_range
        · rw [if_pos c4]
          right
          refine ⟨_, 2, rfl, Or.inr rfl, ?_⟩
          simp [pressRecTimes, hnt, timeAt]
        · rw [if_neg c4]
          by_cases c5 : cfg.pos_hit_miss_range < t - (L.map Prod.fst).getD i 0
          · rw [if_pos c5]
            left
            refine ⟨_, rfl, ?_⟩
            by_cases hb : cfg.blank_miss = true
            · rw [hb]
              rfl
            · rw [Bool.not_eq_true] at hb
              rw [hb]
              rfl
          · exfalso
            omega
/-- Shape of a release-processor call at a RELEASE cursor under valid
windows: an advance of 0 or 1 and never a press-judged record. -/
theorem maniaProcessRelease_spec (cfg : ManiaCfg) (L : List (ℤ × KeyAct)) (i : ℕ) (t : ℤ)
    (hnt : noteTypeAt L i = KeyAct.release) :
    ∃ r adv, maniaProcessRelease cfg (L.map Prod.fst) i t = Except.ok (r, adv) ∧
      (adv = 0 ∨ adv = 1) ∧ pressRecTimes L r.toList = [] := by
  have hne : ¬ noteTypeAt L i = KeyAct.press := by
    rw [hnt]
    intro hcon
    cases hcon
  unfold maniaProcessRelease
  by_cases hl : cfg.lazy_sliders = true
  · rw [if_pos hl]
    exact ⟨none, 1, rfl, Or.inr rfl, rfl⟩
  · rw [if_neg hl]
    dsimp only
    by_cases hs : decide ((L.map Prod.fst).getD i 0 - (L.map Prod.fst).getD (i - 1) 0 ≤ 1) = true
    · rw [if_pos hs]
      exact ⟨none, 1, rfl, Or.inr rfl, rfl⟩
    · rw [if_neg hs]
      by_cases c1 : t - (L.map Prod.fst).getD i 0 ≤ -cfg.neg_rel_miss_range
      · rw [if_pos c1]
        refine ⟨_, 0, rfl, Or.inl rfl, ?_⟩
        by_cases hb : cfg.blank_miss = true
        · rw [hb]
          rfl
        · rw [Bool.not_eq_true] at hb
          rw [hb]
          rfl
      · rw [if_neg c1]
        by_cases c2 : -cfg.neg_rel_miss_range < t - (L.map Prod.fst).getD i 0 ∧
            t - (L.map Prod.fst).getD i 0 ≤ -cfg.neg_rel_range
        · rw [if_pos c2]
          refine ⟨_, 1, rfl, Or.inr rfl, ?_⟩
          simp [pressRecTimes, hne]
        · rw [if_neg c2]
          by_cases c3 : -cfg.neg_rel_range < t - (L.map Prod.fst).getD i 0 ∧
              t - (L.map Prod.fst).getD i 0 ≤ cfg.pos_rel_range
          · rw [if_pos c3]
            refine ⟨_, 1, rfl, Or.inr rfl, ?_⟩
            simp [pressRecTimes]
          · rw [if_neg c3]
            by_cases c4 : cfg.pos_rel_range < t - (L.map Prod.fst).getD i 0 ∧
                t - (L.map Prod.fst).getD i 0 ≤ cfg.pos_rel_miss_range
            · rw [if_pos c4]
              refine ⟨_, 1, rfl, Or.inr rfl, ?_⟩
              simp [pressRecTimes, hne]
            · rw [if_neg c4]
              by_cases c5 : cfg.pos_rel_miss_range < t - (L.map Prod.fst).getD i 0
              · rw [if_pos c5]
                refine ⟨_, 0, rfl, Or.inl rfl, ?_⟩
                by_cases hb : cfg.blank_miss = true
                · rw [hb]
                  rfl
                · rw [Bool.not_eq_true] at hb
                  rw [hb]
                  rfl
              · exfalso
                omega

/-- Shape of a catch-up FREE call at the cursor, under alternation: stop
with nothing, cross a PRESS event (advance 2, one press-judged record with
its time), or cross a RELEASE event (advance 1, no press-judged record). -/
theorem maniaProcessFree_spec (cfg : ManiaCfg) (L : List (ℤ × KeyAct)) (i : ℕ) (t : ℤ)
    (hAlt : Alternating L) :
    (maniaProcessFree cfg (noteTypeAt L i) (L.map Prod.fst) i t = (none, 0)) ∨
    ((maniaProcessFree cfg (noteTypeAt L i) (L.map Prod.fst) i t).2 = 2 ∧
      i < L.length ∧ i % 2 = 0 ∧
      pressRecTimes L (maniaProcessFree cfg (noteTypeAt L i)
        (L.map Prod.fst) i t).1.toList = [timeAt L i]) ∨
    ((maniaProcessFree cfg (noteTypeAt L i) (L.map Prod.fst) i t).2 = 1 ∧
      i < L.length ∧ noteTypeAt L i ≠ KeyAct.press ∧
      pressRecTimes L (maniaProcessFree cfg (noteTypeAt L i)
        (L.map Prod.fst) i t).1.toList = []) := by
  by_cases hlen : (L.map Prod.fst).length ≤ i
  · left
    unfold maniaProcessFree
    rw [if_pos hlen]
  · have hi : i < L.length := by
      rw [List.length_map] at hlen
      omega
    have hnt := noteTypeAt_lt L hAlt i hi
    by_cases he : i % 2 = 0
    · rw [if_pos he] at hnt
      unfold maniaProcessFree
      rw [if_neg hlen, hnt]
      dsimp only
      by_cases hlate : cfg.pos_hit_miss_range < t - (L.map Prod.fst).getD i 0
      · rw [if_pos hlate]
        right
        left
        refine ⟨rfl, hi, he, ?_⟩
        simp [pressRecTimes, hnt, timeAt]
      · rw [if_neg hlate]
        left
        rfl
    · rw [if_neg he] at hnt
      have hne : noteTypeAt L i ≠ KeyAct.press := by
        rw [hnt]
        intro hcon
        cases hcon
      unfold maniaProcessFree
      rw [if_neg hlen, hnt]
      dsimp only
      by_cases hlate : cfg.pos_rel_miss_range < t - (L.map Prod.fst).getD i 0
      · rw [if_pos hlate]
        right
        right
        refine ⟨rfl, hi, by decide, ?_⟩
        by_cases hs : ¬ decide ((L.map Prod.fst).getD i 0 -
            (L.map Prod.fst).getD (i - 1) 0 ≤ 1) = true ∧ ¬ cfg.lazy_sliders = true
        · rw [if_pos hs]
          simp [pressRecTimes, hnt]
        · rw [if_neg hs]
          rfl
      · rw [if_neg hlate]
        left
        rfl

/-- The catch-up loop preserves the press-completeness invariant: if the
accumulated press-judged record times equal the press-event times before the
cursor, they still do when it returns. -/
theorem maniaFreeLoop_inv (cfg : ManiaCfg) (L : List (ℤ × KeyAct)) (rt : ℤ)
    (hAlt : Alternating L) (fuel : ℕ) :
    ∀ i acc, pressRecTimes L acc = pressTimesBelow L i →
      pressRecTimes L (maniaFreeLoop cfg L rt fuel i acc).1 =
        pressTimesBelow L (maniaFreeLoop cfg L rt fuel i acc).2 := by
  induction fuel with
  | zero => exact fun i acc h => h
  | succ n ih =>
    intro i acc h
    unfold maniaFreeLoop
    dsimp only
    rcases maniaProcessFree_spec cfg L i rt hAlt with hc | ⟨ha, hi, he, hr⟩ | ⟨ha, hi, hne, hr⟩
    · rw [hc]
      dsimp only
      rw [if_pos rfl]
      simpa using h
    · rw [ha, if_neg (by omega : ¬ (2 : ℕ) = 0)]
      apply ih
      rw [pressRecTimes_append, h, hr, (pressTimesBelow_cross L hAlt i hi he).2]
    · rw [ha, if_neg (by omega : ¬ (1 : ℕ) = 0)]
      apply ih
      have hgp : (L.get ⟨i, hi⟩).2 ≠ KeyAct.press := by
        intro hcon
        apply hne
        unfold noteTypeAt
        rw [List.get?_eq_get hi]
        exact hcon
      rw [pressRecTimes_append, h, hr, List.append_nil,
        pressTimesBelow_succ_other L i hi hgp]

/-- A RELEASE cursor position is in range and its event is not a PRESS. -/
theorem noteTypeAt_release_elim (L : List (ℤ × KeyAct)) (i : ℕ)
    (h : noteTypeAt L i = KeyAct.release) :
    ∃ hi : i < L.length, (L.get ⟨i, hi⟩).2 ≠ KeyAct.press := by
  by_cases hi : i < L.length
  · refine ⟨hi, ?_⟩
    unfold noteTypeAt at h
    rw [List.get?_eq_get hi] at h
    dsimp only at h
    rw [h]
    intro hcon
    cases hcon
  · rw [noteTypeAt_ge L i (le_of_not_lt hi)] at h
    cases h

/-- The column loop preserves the press-completeness invariant through every
replay event and the end-of-map fill: a successful run ends with the
press-judged record times equal to the press-event times before the final
cursor. -/
theorem maniaColLoop_inv (cfg : ManiaCfg) (L : List (ℤ × KeyAct))
    (hAlt : Alternating L) :
    ∀ (R : List (ℤ × KeyAct)) (i : ℕ) (rt? : Option ℤ) (acc recs : List MRecord)
      (rtF : Option ℤ) (iF : ℕ),
      pressRecTimes L acc = pressTimesBelow L i →
      maniaColLoop cfg L R i rt? acc = Except.ok (recs, rtF, iF) →
      pressRecTimes L recs = pressTimesBelow L iF := by
  intro R
  induction R with
  | nil =>
    intro i rt? acc recs rtF iF h hrun
    unfold maniaColLoop at hrun
    by_cases hlen : i < L.length
    · rw [if_pos hlen] at hrun
      cases rt? with
      | none => cases hrun
      | some rt0 =>
        dsimp only at hrun
        injection hrun with hpair
        injection hpair with hrecs hrest
        injection hrest with hrt hidx
        rw [← hrecs, ← hidx, pressRecTimes_append, pressRecTimes_replicate_empty, h,
          List.append_nil]
    · rw [if_neg hlen] at hrun
      injection hrun with hpair
      injection hpair with hrecs hrest
      injection hrest with hrt hidx
      rw [← hrecs, ← hidx]
      exact h
  | cons ev rest ih =>
    intro i rt? acc recs rtF iF h hrun
    cases ev with
    | mk rt rtype =>
      unfold maniaColLoop at hrun
      dsimp only at hrun
      have hfrInv : pressRecTimes L (maniaFreeLoop cfg L rt (L.length + 1) i acc).1 =
          pressTimesBelow L (maniaFreeLoop cfg L rt (L.length + 1) i acc).2 :=
        maniaFreeLoop_inv cfg L rt hAlt (L.length + 1) i acc h
      set fr := maniaFreeLoop cfg L rt (L.length + 1) i acc with hfr
      by_cases hp : rtype = KeyAct.press ∧ noteTypeAt L fr.2 = KeyAct.press
      · rw [if_pos hp] at hrun
        obtain ⟨hi2, he2⟩ := noteTypeAt_press_elim L hAlt fr.2 hp.2
        rcases maniaProcessPress_spec cfg L fr.2 rt hp.2 with
          ⟨r, heq, hr⟩ | ⟨r, adv, heq, hadv, hr⟩
        · rw [heq] at hrun
          dsimp only at hrun
          apply ih _ _ _ _ _ _ ?_ hrun
          rw [pressRecTimes_append, hfrInv, hr, List.append_nil, Nat.add_zero]
        · rw [heq] at hrun
          dsimp only at hrun
          apply ih _ _ _ _ _ _ ?_ hrun
          rw [pressRecTimes_append, hfrInv, hr]
          rcases hadv with h1 | h2
          · rw [h1, (pressTimesBelow_cross L hAlt fr.2 hi2 he2).1]
          · rw [h2, (pressTimesBelow_cross L hAlt fr.2 hi2 he2).2]
      · rw [if_neg hp] at hrun
        by_cases hq : rtype = KeyAct.release ∧ noteTypeAt L fr.2 = KeyAct.release
        · rw [if_pos hq] at hrun
          obtain ⟨hi2, hne2⟩ := noteTypeAt_release_elim L fr.2 hq.2
          obtain ⟨r, adv, heq, hadv, hr⟩ := maniaProcessRelease_spec cfg L fr.2 rt hq.2
          rw [heq] at hrun
          dsimp only at hrun
          apply ih _ _ _ _ _ _ ?_ hrun
          rw [pressRecTimes_append, hfrInv, hr, List.append_nil]
          rcases hadv with h0 | h1
          · rw [h0, Nat.add_zero]
          · rw [h1, pressTimesBelow_succ_other L fr.2 hi2 hne2]
        · rw [if_neg hq] at hrun
          exact ih _ _ _ _ _ _ hfrInv hrun

/-- C2 amended: per-column press completeness for wellformed (alternating,
non-overlapping) columns.  On any successful column run, the sequence of
`map_t` values over HIT_PRESS records and press-judged MISS records equals
the sequence of PRESS-role event times before the final cursor — in
particular, when the run ends with the cursor past the whole column (no
end-of-replay EMPTY fill), every PRESS-role map event is matched by exactly
one HIT_PRESS or MISS record with its time, and by nothing else.  (MISS
records judged at RELEASE events and end-of-replay EMPTY fills fall outside
this correspondence; see the counterexample.) -/
theorem mania_press_completeness (cfg : ManiaCfg) (L R : List (ℤ × KeyAct))
    (recs : List MRecord) (rtF : Option ℤ) (iF : ℕ)
    (hAlt : Alternating L)
    (hrun : maniaColLoop cfg L R 0 none [] = Except.ok (recs, rtF, iF)) :
    pressRecTimes L recs = pressTimesBelow L iF ∧
    (L.length ≤ iF →
      pressRecTimes L recs = (L.filter (fun p => p.2 = KeyAct.press)).map Prod.fst) := by
  have hmain := maniaColLoop_inv cfg L hAlt R 0 none [] recs rtF iF rfl hrun
  refine ⟨hmain, fun hge => ?_⟩
  rw [hmain]
  unfold pressTimesBelow
  rw [List.take_of_length_le hge]

/-- Witness for C2 (amended): one long note (100, 600) played with press at
100 and release at 599; the run ends past the column and the press-judged
record times are exactly the press times. -/
theorem mania_press_completeness_witness :
    maniaColLoop {} [(100, KeyAct.press), (600, KeyAct.release)]
        [(100, KeyAct.press), (599, KeyAct.release)] 0 none [] =
      Except.ok ([⟨100, some 100, MType.hitp, some 0⟩, ⟨599, some 600, MType.hitr, some 1⟩],
        some 599, 2) ∧
    pressRecTimes [(100, KeyAct.press), (600, KeyAct.release)]
        [⟨100, some 100, MType.hitp, some 0⟩, ⟨599, some 600, MType.hitr, some 1⟩] =
      ([((100 : ℤ), KeyAct.press), (600, KeyAct.release)].filter
        (fun p => p.2 = KeyAct.press)).map Prod.fst := by
  have hAlt : Alternating [(100, KeyAct.press), (600, KeyAct.release)] := by
    intro i hi
    match i, hi with
    | 0, _ => rfl
    | 1, _ => rfl
  refine ⟨rfl, ?_⟩
  exact (mania_press_completeness {} [(100, KeyAct.press), (600, KeyAct.release)]
    [(100, KeyAct.press), (599, KeyAct.release)]
    [⟨100, some 100, MType.hitp, some 0⟩, ⟨599, some 600, MType.hitr, some 1⟩]
    (some 599) 2 hAlt rfl).2 (by decide)

/-- C2 counterexample: the multiset of `map_t` over HIT_PRESS-or-MISS
records does not equal the multiset of PRESS-role event times as claimed.
A long note (100, 600) whose release is pressed far too late yields a MISS
record with `map_t = 600` — a RELEASE event time — so the multiset is
[100, 600] against press times [100]; and when the replay ends early
(second map below), the remaining press event produces only end-of-replay
EMPTY fills, which moreover all repeat the first remaining event's time. -/
theorem mania_completeness_cex :
    maniaGetScoreData {} [(100, 600, 0)] [(100, 5000, 0)] =
      Except.ok [[⟨100, some 100, MType.hitp, some 0⟩,
                  ⟨5000, some 600, MType.miss, some 1⟩]] ∧
    ([⟨100, some 100, MType.hitp, some 0⟩,
      ⟨5000, some 600, MType.miss, some 1⟩] : List MRecord).filterMap
        (fun r => match r.type with
          | MType.hitp => r.map_t
          | MType.miss => r.map_t
          | _ => none) = [100, 600] ∧
    ((buildColumn [(100, 600)]).filter (fun p => p.2 = KeyAct.press)).map Prod.fst =
      [100] ∧
    maniaGetScoreData {} [(100, 101, 0), (10000, 10001, 0)] [(100, 101, 0)] =
      Except.ok [[⟨100, some 100, MType.hitp, some 0⟩,
                  ⟨101, some 10000, MType.empty, none⟩,
                  ⟨101, some 10000, MType.empty, none⟩]] := by
  exact ⟨rfl, rfl, rfl, rfl⟩

/-- C9 counterexample: with `require_aim_press` true and `require_tap_press`
false, a successful run writes diagnostic lines to standard output — two
`free hitp` lines here (the FREE event is processed once by catch-up and once
by dispatch). -/
theorem std_io_cex :
    getScoreData { require_tap_press := false }
      [⟨100, 0, 0, AimRole.press, ObjKind.circle, 0⟩,
       ⟨101, 0, 0, AimRole.release, ObjKind.circle, 0⟩]
      [⟨100, 0, 0, KeyAct.free⟩] =
      ([⟨100, some 100, some (0, 0), some (0, 0), SType.hitp, KeyAct.press⟩,
        ⟨100, some 100, some (0, 0), some (0, 0), SType.hitp, KeyAct.press⟩],
       ["free hitp", "free hitp"]) := by
  decide

end OsuAnalysis
